import Mathlib

/-!
Verification development for the configuration-driven RDF visualization engine
(danja/mult).  The TypeScript core is shallowly embedded: JavaScript runtime
values that the code inspects are modelled by the inductive `JSVal`
(strings, numbers-or-NaN, `{x,y,z}`-shaped objects, `undefined`), JavaScript
numbers by `JSNum` (a rational value or NaN; the numeric-literal forms the code
actually parses are integers and plain decimals), a parsed triple store by a
list of `RDFQuad`, and functions that may throw by `Except String`-valued
functions.  Every definition mirrors one function of the source
(`rdf-mapping.ts`, `mapping-manager.ts`, `rdf-loader.ts`, `data-utils.ts`,
`multiverse-data.ts`); the I/O layer (fetch/TTL parsing) is out of scope per
the spec and the engine is modelled as a function of the already-parsed store.
-/

/-- Model of a JavaScript number: either NaN or an integer value.  The code
only ever produces numbers from `Number(...)`, `parseInt(..., 16)` and
`parseFloat(...)`, and every literal the claims exercise is integer-valued;
numeric forms outside this fragment (non-integer decimals, exponents,
Infinity) are conflated with NaN. -/
inductive JSNum where
  | nan : JSNum
  | val : Int → JSNum
deriving DecidableEq

/-- Model of the JavaScript runtime values the engine routes around:
strings, numbers, position-shaped objects `{x?, y?, z?}` (as produced by the
configured position transforms) and `undefined`. -/
inductive JSVal where
  | str : String → JSVal
  | num : JSNum → JSVal
  | obj : Option JSNum → Option JSNum → Option JSNum → JSVal
  | undef : JSVal
deriving DecidableEq

/-- JavaScript truthiness of a `JSVal`: empty strings, `0`, `NaN` and
`undefined` are falsy; objects are always truthy. -/
def JSVal.truthy : JSVal → Bool
  | .str s => s ≠ ""
  | .num .nan => false
  | .num (.val q) => q ≠ 0
  | .obj _ _ _ => true
  | .undef => false

/-- Splitting helper on character lists: `splitAux c l` is the list of
maximal `c`-free segments of `l` (JS `String.prototype.split` with a
one-character separator). -/
def splitAux (c : Char) : List Char → List (List Char)
  | [] => [[]]
  | a :: rest =>
    match splitAux c rest with
    | [] => [[]]
    | g :: gs => if a = c then [] :: g :: gs else (a :: g) :: gs

/-- JS `s.split(sep)` for a one-character separator. -/
def jsSplit (s : String) (sep : Char) : List String :=
  (splitAux sep s.data).map (fun l => String.mk l)

/-- JS `value.split('/').pop() || ''` as used by the built-in layer
transforms and `extractLayerId` functions. -/
def splitPopOr (v : String) : String :=
  ((jsSplit v '/').getLast?).getD ""

/-- Decimal digit value of a character, if any. -/
def digitVal (c : Char) : Option Nat :=
  if c.isDigit then some (c.toNat - 48) else none

/-- Hexadecimal digit value of a character, if any. -/
def hexDigitVal (c : Char) : Option Nat :=
  if c.isDigit then some (c.toNat - 48)
  else if 'a' ≤ c ∧ c ≤ 'f' then some (c.toNat - 87)
  else if 'A' ≤ c ∧ c ≤ 'F' then some (c.toNat - 55)
  else none

/-- Value of a list of decimal digits (most significant first). -/
def natOfDigits (l : List Char) : Nat :=
  l.foldl (fun acc c => acc * 10 + ((digitVal c).getD 0)) 0

/-- Value of a list of hexadecimal digits (most significant first). -/
def natOfHexDigits (l : List Char) : Nat :=
  l.foldl (fun acc c => acc * 16 + ((hexDigitVal c).getD 0)) 0

/-- Trim surrounding whitespace from a character list. -/
def trimChars (l : List Char) : List Char :=
  ((l.dropWhile Char.isWhitespace).reverse.dropWhile Char.isWhitespace).reverse

/-- Parse an optional sign, returning whether it is negative and the rest. -/
def takeSign : List Char → Bool × List Char
  | '+' :: rest => (false, rest)
  | '-' :: rest => (true, rest)
  | l => (false, l)

/-- Apply a parsed sign to a natural value. -/
def applySign (neg : Bool) (n : Nat) : Int :=
  if neg then -(n : Int) else (n : Int)

/-- Parse a full decimal literal `digits [. digits]` (non-empty integer
part, nothing left over) as accepted by JS `Number(...)`, restricted to the
integer-valued fragment: a fractional part must be all zeroes, and a
non-integer literal falls outside the modelled fragment (NaN). -/
def parseDecimalCore (l : List Char) : Option Nat :=
  let intPart := l.takeWhile Char.isDigit
  let rest := l.dropWhile Char.isDigit
  match rest with
  | [] => if intPart = [] then none else some (natOfDigits intPart)
  | '.' :: frac =>
    if intPart ≠ [] ∧ frac.all (fun c => c = '0') then some (natOfDigits intPart)
    else none
  | _ => none

/-- Model of JS `Number(s)` on the integer literal forms the engine
manipulates: whitespace-trimmed; empty string is `0`; signed integer-valued
decimal literals are their value; anything else is NaN. -/
def jsNumber (s : String) : JSNum :=
  let t := trimChars s.data
  if t = [] then .val 0
  else
    let (neg, t1) := takeSign t
    match parseDecimalCore t1 with
    | some n => .val (applySign neg n)
    | none => .nan

/-- Model of JS `parseInt(s, 16)`: whitespace-trimmed, optional sign,
optional `0x`/`0X`, then the longest hexadecimal-digit run (NaN if empty). -/
def parseIntHex (s : String) : JSNum :=
  let t := trimChars s.data
  let (neg, t1) := takeSign t
  let t2 := match t1 with
    | '0' :: 'x' :: rest => rest
    | '0' :: 'X' :: rest => rest
    | l => l
  let digits := t2.takeWhile (fun c => (hexDigitVal c).isSome)
  if digits = [] then .nan else .val (applySign neg (natOfHexDigits digits))

/-- Model of JS `parseFloat(s)`: whitespace-trimmed, optional sign, then
the longest prefix of shape `digits [. digits]`; NaN when there is no
digit, restricted to the integer-valued fragment (a non-zero fractional
part falls outside the modelled fragment, NaN). -/
def parseFloatJS (s : String) : JSNum :=
  let t := trimChars s.data
  let (neg, t1) := takeSign t
  let intPart := t1.takeWhile Char.isDigit
  let rest := t1.dropWhile Char.isDigit
  let frac := match rest with
    | '.' :: r => r.takeWhile Char.isDigit
    | _ => []
  if intPart = [] then .nan
  else if frac.all (fun c => c = '0') then .val (applySign neg (natOfDigits intPart))
  else .nan

/-- An RDF term as the engine sees it: a named node (IRI) or a literal.
Both expose a `.value` string. -/
inductive RDFTerm where
  | namedNode : String → RDFTerm
  | literal : String → RDFTerm
deriving DecidableEq

/-- The `.value` of an RDF term. -/
def termValue : RDFTerm → String
  | .namedNode v => v
  | .literal v => v

/-- A statement of the triple store.  Subjects and predicates are named
nodes in every code path the engine exercises, so they are kept as plain
IRI strings. -/
structure RDFQuad where
  subject : String
  predicate : String
  object : RDFTerm
deriving DecidableEq

/-- `RDFDataLoader.getPropertyValue`: the object value of the first
statement with the given subject and predicate, in store iteration order. -/
def getPropertyValue (ds : List RDFQuad) (subject property : String) : Option String :=
  (ds.find? (fun q => q.subject = subject ∧ q.predicate = property)).map
    (fun q => termValue q.object)

/-- JS truthiness normalization for `string | null` property lookups:
`null` and the empty string behave identically (falsy) at every use site. -/
def truthyValue : Option String → Option String
  | some s => if s = "" then none else some s
  | none => none

/-- The well-known `rdf:type` predicate IRI. -/
def rdfTypeIRI : String := "http://www.w3.org/1999/02/22-rdf-syntax-ns#type"

/-- A configured transform: a JS function from the raw statement value to
an arbitrary value, which may throw (`Except.error`). -/
abbrev Transform := String → Except String JSVal

/-- `EntityTypeMapping` of `rdf-mapping.ts`. -/
structure EntityTypeMapping where
  rdfClass : String
  label : String
  typeId : String
deriving DecidableEq

/-- The `visualAttribute` union of `rdf-mapping.ts`. -/
inductive VisualAttribute where
  | label | position | layer | color | subtitle | height
deriving DecidableEq

/-- `PropertyMapping` of `rdf-mapping.ts`.  The optional `required` flag is
normalized to a boolean (absent = false, as JS truthiness does). -/
structure PropertyMapping where
  rdfProperty : String
  visualAttribute : VisualAttribute
  required : Bool
  transform : Option Transform

/-- `RelationshipMapping` of `rdf-mapping.ts`. -/
structure RelationshipMapping where
  rdfPredicate : String
  label : String
  styleId : Option String

/-- `LayerGrouping` of `rdf-mapping.ts`.  `extractLayerId` is declared
mandatory in the TS type, but a JSON round-trip (see `jsonRoundTrip`)
produces configurations where it is absent at runtime, so it is modelled as
an `Option`; calling an absent function is a thrown TypeError. -/
structure LayerGrouping where
  layerProperty : String
  extractLayerId : Option (String → String)
  layerClass : Option String

/-- The optional `crossLayerConnections` rule of `rdf-mapping.ts`. -/
structure CrossLayerRule where
  rdfPredicate : String
  label : String

/-- `VisualizationMapping` of `rdf-mapping.ts`.  `namespaces` is a JS object
modelled as an association list of prefix/IRI pairs. -/
structure VisualizationMapping where
  entityTypes : List EntityTypeMapping
  properties : List PropertyMapping
  relationships : List RelationshipMapping
  layerGrouping : LayerGrouping
  crossLayerConnections : Option CrossLayerRule
  namespaces : List (String × String)

/-- The position transform shared by the built-in configurations:
`value.split(',').map(Number)` packed into an `{x, y, z}` object (fields are
`undefined` when fewer than three components exist). -/
def numberTripleTransform : Transform := fun value =>
  let coords := (jsSplit value ',').map jsNumber
  .ok (.obj coords[0]? coords[1]? coords[2]?)

/-- The layer transform shared by the built-in configurations:
`value.split('/').pop() || ''` as a string. -/
def lastSegmentTransform : Transform := fun value =>
  .ok (.str (splitPopOr value))

/-- The color transform of the default configuration: `parseInt(value, 16)`. -/
def hexColorTransform : Transform := fun value =>
  .ok (.num (parseIntHex value))

/-- The height transform of the default configuration: `parseFloat(value)`. -/
def floatTransform : Transform := fun value =>
  .ok (.num (parseFloatJS value))

/-- `DEFAULT_MULTIVERSE_MAPPING` of `rdf-mapping.ts`. -/
def DEFAULT_MULTIVERSE_MAPPING : VisualizationMapping where
  entityTypes := [
    { rdfClass := "http://example.org/multiverse/vocab/Character",
      label := "Character", typeId := "character" },
    { rdfClass := "http://example.org/multiverse/vocab/Movie",
      label := "Movie", typeId := "movie" }]
  properties := [
    { rdfProperty := "http://www.w3.org/2000/01/rdf-schema#label",
      visualAttribute := .label, required := true, transform := none },
    { rdfProperty := "http://example.org/multiverse/vocab/hasPosition",
      visualAttribute := .position, required := true,
      transform := some numberTripleTransform },
    { rdfProperty := "http://example.org/multiverse/vocab/belongsToUniverse",
      visualAttribute := .layer, required := true,
      transform := some lastSegmentTransform },
    { rdfProperty := "http://example.org/multiverse/vocab/hasSubtitle",
      visualAttribute := .subtitle, required := false, transform := none },
    { rdfProperty := "http://example.org/multiverse/vocab/hasColor",
      visualAttribute := .color, required := false,
      transform := some hexColorTransform },
    { rdfProperty := "http://example.org/multiverse/vocab/hasHeight",
      visualAttribute := .height, required := false,
      transform := some floatTransform }]
  relationships := [
    { rdfPredicate := "http://example.org/multiverse/vocab/appearsIn",
      label := "appears in", styleId := none },
    { rdfPredicate := "http://example.org/multiverse/vocab/cameoIn",
      label := "cameo in", styleId := none }]
  layerGrouping := {
    layerProperty := "http://example.org/multiverse/vocab/belongsToUniverse",
    extractLayerId := some splitPopOr,
    layerClass := some "http://example.org/multiverse/vocab/Universe" }
  crossLayerConnections := some {
    rdfPredicate := "http://example.org/multiverse/vocab/connectsTo",
    label := "connects to" }
  namespaces := [
    ("ex", "http://example.org/multiverse/"),
    ("mv", "http://example.org/multiverse/vocab/"),
    ("rdf", "http://www.w3.org/1999/02/22-rdf-syntax-ns#"),
    ("rdfs", "http://www.w3.org/2000/01/rdf-schema#"),
    ("xsd", "http://www.w3.org/2001/XMLSchema#")]

/-- `EXAMPLE_ORG_CHART_MAPPING` of `rdf-mapping.ts`. -/
def EXAMPLE_ORG_CHART_MAPPING : VisualizationMapping where
  entityTypes := [
    { rdfClass := "http://xmlns.com/foaf/0.1/Person",
      label := "Person", typeId := "person" },
    { rdfClass := "http://example.org/org/Department",
      label := "Department", typeId := "department" }]
  properties := [
    { rdfProperty := "http://xmlns.com/foaf/0.1/name",
      visualAttribute := .label, required := true, transform := none },
    { rdfProperty := "http://example.org/org/hasPosition",
      visualAttribute := .position, required := true,
      transform := some numberTripleTransform },
    { rdfProperty := "http://example.org/org/belongsToDepartment",
      visualAttribute := .layer, required := true,
      transform := some lastSegmentTransform },
    { rdfProperty := "http://example.org/org/jobTitle",
      visualAttribute := .subtitle, required := false, transform := none }]
  relationships := [
    { rdfPredicate := "http://example.org/org/reportsTo",
      label := "reports to", styleId := none },
    { rdfPredicate := "http://example.org/org/collaboratesWith",
      label := "collaborates with", styleId := none }]
  layerGrouping := {
    layerProperty := "http://example.org/org/belongsToDepartment",
    extractLayerId := some splitPopOr,
    layerClass := some "http://example.org/org/Department" }
  crossLayerConnections := none
  namespaces := [
    ("foaf", "http://xmlns.com/foaf/0.1/"),
    ("org", "http://example.org/org/"),
    ("rdf", "http://www.w3.org/1999/02/22-rdf-syntax-ns#"),
    ("rdfs", "http://www.w3.org/2000/01/rdf-schema#")]

/-- `validateMapping` of `rdf-mapping.ts`, line for line: accumulates the
violation messages in source order (the JS `Set` size comparison is the
count of distinct `typeId`s, i.e. `List.dedup`). -/
def validateMapping (m : VisualizationMapping) : List String :=
  (if m.entityTypes.isEmpty then ["At least one entity type mapping is required"] else [])
  ++ (if m.properties.any (fun p => p.visualAttribute = .label ∧ p.required) then []
      else ["A required label property mapping is needed"])
  ++ (if m.properties.any (fun p => p.visualAttribute = .position ∧ p.required) then []
      else ["A required position property mapping is needed"])
  ++ (if m.properties.any (fun p => p.visualAttribute = .layer ∧ p.required) then []
      else ["A required layer property mapping is needed"])
  ++ (if (m.entityTypes.map (fun e => e.typeId)).dedup.length ≠ (m.entityTypes.map (fun e => e.typeId)).length
      then ["Entity type IDs must be unique"] else [])
  ++ (if m.namespaces.isEmpty then ["At least one namespace mapping is required"] else [])

/-- Validator as prescribed by the specification (section 4.1): checks run
in the fixed order (a) `entityTypes` non-empty, (b) a required Label rule,
(c) a required Position rule, (d) a required Layer rule, (e) pairwise
distinct `typeId`s, (f) non-empty namespace prefixes, accumulating all
violations.  Stated independently of the source definition so that
`validateMapping` can be proved to refine it. -/
def validateMappingSpec (m : VisualizationMapping) : List String :=
  (if m.entityTypes = [] then ["At least one entity type mapping is required"] else [])
  ++ (if ∃ p ∈ m.properties, p.visualAttribute = .label ∧ p.required then []
      else ["A required label property mapping is needed"])
  ++ (if ∃ p ∈ m.properties, p.visualAttribute = .position ∧ p.required then []
      else ["A required position property mapping is needed"])
  ++ (if ∃ p ∈ m.properties, p.visualAttribute = .layer ∧ p.required then []
      else ["A required layer property mapping is needed"])
  ++ (if (m.entityTypes.map (fun e => e.typeId)).Nodup then []
      else ["Entity type IDs must be unique"])
  ++ (if m.namespaces = [] then ["At least one namespace mapping is required"] else [])

/-- JS `Map.set` / object-index assignment on an association list: overwrite
in place when the key exists (keeping its position), append otherwise. -/
def mapSet {α : Type} (l : List (String × α)) (k : String) (v : α) : List (String × α) :=
  if l.any (fun kv => kv.1 = k) then l.map (fun kv => if kv.1 = k then (k, v) else kv)
  else l ++ [(k, v)]

/-- The `Partial<MultiverseNode>` accumulator of
`RDFDataLoader.buildEntityFromRDF` (id and type are fixed separately). -/
structure NodeBuild where
  label : Option JSVal
  x : Option JSNum
  y : Option JSNum
  z : Option JSNum
  layer : Option JSVal
  subtitle : Option JSVal
  properties : List (String × JSVal)
deriving DecidableEq

/-- The empty accumulator `{ id, type, properties: {} }`. -/
def emptyBuild : NodeBuild := ⟨none, none, none, none, none, none, []⟩

/-- Application of a property rule's transform: the configured function when
present (which may throw), the raw value otherwise. -/
def transformApply (p : PropertyMapping) (raw : String) : Except String JSVal :=
  match p.transform with
  | some f => f raw
  | none => .ok (.str raw)

/-- The comma-separated fallback of the `position` branch of
`buildEntityFromRDF`: `propertyValue.split(',').map(Number)`, assigned only
when there are exactly three components (numeric or not). -/
def positionFallback (raw : String) : Option (JSNum × JSNum × JSNum) :=
  match (jsSplit raw ',').map jsNumber with
  | [a, b, c] => some (a, b, c)
  | _ => none

/-- The `switch (propMapping.visualAttribute)` statement of
`buildEntityFromRDF`, routing the (possibly transformed) value to the
target attribute slot: a structured `{x,...}` value fills the coordinates;
any other value falls back to re-parsing the raw comma-separated literal
(assigned only when it splits into exactly three components); attributes
outside the switch go to the `properties` bag. -/
def routeAttribute (p : PropertyMapping) (raw : String) (tv : JSVal)
    (nb : NodeBuild) : NodeBuild :=
  match p.visualAttribute with
  | .label => { nb with label := some tv }
  | .position =>
    match tv with
    | .obj (some x0) y0 z0 => { nb with x := some x0, y := y0, z := z0 }
    | _ =>
      match positionFallback raw with
      | some (a, b, c) => { nb with x := some a, y := some b, z := some c }
      | none => nb
  | .layer => { nb with layer := some tv }
  | .subtitle => { nb with subtitle := some tv }
  | _ => { nb with properties := mapSet nb.properties p.rdfProperty tv }

/-- One iteration of the property-rule loop of `buildEntityFromRDF`:
look the property up, record it as missing when absent/empty and required,
otherwise transform it (uncaught exceptions propagate) and route it. -/
def applyPropertyRule (ds : List RDFQuad) (uri : String)
    (acc : NodeBuild × List String) (p : PropertyMapping) :
    Except String (NodeBuild × List String) :=
  match truthyValue (getPropertyValue ds uri p.rdfProperty) with
  | none =>
    if p.required then .ok (acc.1, acc.2 ++ [p.rdfProperty]) else .ok acc
  | some raw =>
    Except.map (fun tv => (routeAttribute p raw tv acc.1, acc.2)) (transformApply p raw)

/-- The property-rule loop of `buildEntityFromRDF` over the configured rules
in order. -/
def applyPropertyRules (ds : List RDFQuad) (uri : String) :
    List PropertyMapping → NodeBuild × List String → Except String (NodeBuild × List String)
  | [], acc => .ok acc
  | p :: ps, acc =>
    Except.bind (applyPropertyRule ds uri acc p)
      (fun acc2 => applyPropertyRules ds uri ps acc2)

/-- `MultiverseNode` as materialized by the configurable loader: the
declared TS field types are refined by the completeness guard, so label and
layer are present (truthy) values and the coordinates are JS numbers. -/
structure MultiverseNode where
  id : String
  type : String
  label : JSVal
  layer : JSVal
  x : JSNum
  y : JSNum
  z : JSNum
  subtitle : Option JSVal
  properties : List (String × JSVal)
deriving DecidableEq

/-- The tail of `buildEntityFromRDF` after the rule loop: drop the entity
(`none`) when a required rule was unsatisfied or the completeness guard
(`!label || x/y/z undefined || !layer`) fails, and materialize it
otherwise. -/
def finalizeEntity (uri typeId : String) (nb : NodeBuild)
    (reqMissing : List String) : Option MultiverseNode :=
  if reqMissing ≠ [] then none
  else
    match nb.label, nb.x, nb.y, nb.z, nb.layer with
    | some l, some x, some y, some z, some ly =>
      if l.truthy ∧ ly.truthy then
        some ⟨uri, typeId, l, ly, x, y, z, nb.subtitle, nb.properties⟩
      else none
    | _, _, _, _, _ => none

/-- `RDFDataLoader.buildEntityFromRDF`: run the rule loop (a thrown
transform is not caught and propagates) and finalize. -/
def buildEntityFromRDF (ds : List RDFQuad) (m : VisualizationMapping)
    (uri typeId : String) : Except String (Option MultiverseNode) :=
  Except.map (fun acc => finalizeEntity uri typeId acc.1 acc.2)
    (applyPropertyRules ds uri m.properties (emptyBuild, []))

/-- The `classIRI → typeId` lookup map built by `extractEntities`
(`Map.set` in configuration order, later entries overwriting). -/
def entityTypeMap (m : VisualizationMapping) : List (String × String) :=
  m.entityTypes.foldl (fun acc et => mapSet acc et.rdfClass et.typeId) []

/-- The scan loop of `RDFDataLoader.extractEntities` over the remaining
statements (the full store `ds` stays available for property lookups). -/
def extractEntitiesGo (ds : List RDFQuad) (m : VisualizationMapping) :
    List RDFQuad → Except String (List MultiverseNode)
  | [] => .ok []
  | q :: rest =>
    if q.predicate = rdfTypeIRI then
      match (entityTypeMap m).lookup (termValue q.object) with
      | some tid =>
        Except.bind (buildEntityFromRDF ds m q.subject tid) (fun n? =>
          Except.map (fun ns => match n? with | some n => n :: ns | none => ns)
            (extractEntitiesGo ds m rest))
      | none => extractEntitiesGo ds m rest
    else extractEntitiesGo ds m rest

/-- `RDFDataLoader.extractEntities`. -/
def extractEntities (ds : List RDFQuad) (m : VisualizationMapping) :
    Except String (List MultiverseNode) :=
  extractEntitiesGo ds m ds

/-- Calling the configuration's `extractLayerId`; absent after a JSON
round-trip, in which case JS throws a TypeError. -/
def applyExtractLayerId (g : LayerGrouping) (v : String) : Except String String :=
  match g.extractLayerId with
  | some f => .ok (f v)
  | none => .error "TypeError: extractLayerId is not a function"

/-- `RDFDataLoader.getEntityLayer`: the first layer-property statement value
run through `extractLayerId`, or the empty string. -/
def getEntityLayer (ds : List RDFQuad) (m : VisualizationMapping)
    (uri : String) : Except String String :=
  match truthyValue (getPropertyValue ds uri m.layerGrouping.layerProperty) with
  | some v => applyExtractLayerId m.layerGrouping v
  | none => .ok ""

/-- `MultiverseTriple` of `types/index.ts`. -/
structure MultiverseTriple where
  subject : String
  predicate : String
  object : String
  layer : String
deriving DecidableEq

/-- The scan loop of `RDFDataLoader.extractRelationships`. -/
def extractRelationshipsGo (ds : List RDFQuad) (m : VisualizationMapping) :
    List RDFQuad → Except String (List MultiverseTriple)
  | [] => .ok []
  | q :: rest =>
    if (m.relationships.map (fun r => r.rdfPredicate)).contains q.predicate then
      Except.bind (getEntityLayer ds m q.subject) (fun layer =>
        Except.map (fun ts => ⟨q.subject, q.predicate, termValue q.object, layer⟩ :: ts)
          (extractRelationshipsGo ds m rest))
    else extractRelationshipsGo ds m rest

/-- `RDFDataLoader.extractRelationships`. -/
def extractRelationships (ds : List RDFQuad) (m : VisualizationMapping) :
    Except String (List MultiverseTriple) :=
  extractRelationshipsGo ds m ds

/-- `MultiverseLayer` as materialized by `extractLayers`; name, color and
height hold whatever runtime values the property rules produced. -/
structure MultiverseLayer where
  name : JSVal
  color : JSVal
  height : JSVal
deriving DecidableEq

/-- The `Partial<MultiverseLayer>` accumulator of `extractLayers`. -/
structure LayerBuild where
  name : Option JSVal
  color : Option JSVal
  height : Option JSVal
deriving DecidableEq

/-- The `switch` of the layer property loop: only the `label`, `color` and
`height` targets are routed. -/
def routeLayerAttribute (p : PropertyMapping) (tv : JSVal)
    (acc : LayerBuild) : LayerBuild :=
  match p.visualAttribute with
  | .label => { acc with name := some tv }
  | .color => { acc with color := some tv }
  | .height => { acc with height := some tv }
  | _ => acc

/-- One iteration of the property loop of `extractLayers`; transforms may
throw. -/
def applyLayerRule (ds : List RDFQuad) (uri : String) (acc : LayerBuild)
    (p : PropertyMapping) : Except String LayerBuild :=
  match truthyValue (getPropertyValue ds uri p.rdfProperty) with
  | none => .ok acc
  | some raw =>
    Except.map (fun tv => routeLayerAttribute p tv acc) (transformApply p raw)

/-- The property loop of `extractLayers` over the configured rules. -/
def resolveLayerPropsGo (ds : List RDFQuad) (uri : String) :
    List PropertyMapping → LayerBuild → Except String LayerBuild
  | [], acc => .ok acc
  | p :: ps, acc =>
    Except.bind (applyLayerRule ds uri acc p)
      (fun acc2 => resolveLayerPropsGo ds uri ps acc2)

/-- The name/color/height resolution of `extractLayers` for one layer
subject. -/
def resolveLayerProps (ds : List RDFQuad) (m : VisualizationMapping)
    (uri : String) : Except String LayerBuild :=
  resolveLayerPropsGo ds uri m.properties ⟨none, none, none⟩

/-- JS `value || default` on a possibly-undefined value. -/
def jsOr (o : Option JSVal) (d : JSVal) : JSVal :=
  match o with
  | some v => if v.truthy then v else d
  | none => d

/-- The materialization guard at the end of the `extractLayers` body:
`if (layer.name && layerKey)`, with the defaulting `layer.color || 0x666666`
and `layer.height || 0`. -/
def finalizeLayer (layerKey : String) (lb : LayerBuild) :
    Option (String × MultiverseLayer) :=
  match lb.name with
  | some nm =>
    if nm.truthy ∧ layerKey ≠ "" then
      some (layerKey,
        ⟨nm, jsOr lb.color (.num (.val 6710886)), jsOr lb.height (.num (.val 0))⟩)
    else none
  | none => none

/-- The per-subject body of `extractLayers`: resolve the display
properties, derive the key from the subject's own identifier via
`extractLayerId`, and materialize via `finalizeLayer`. -/
def buildLayerFromRDF (ds : List RDFQuad) (m : VisualizationMapping)
    (uri : String) : Except String (Option (String × MultiverseLayer)) :=
  Except.bind (resolveLayerProps ds m uri) (fun lb =>
    Except.map (fun layerKey => finalizeLayer layerKey lb)
      (applyExtractLayerId m.layerGrouping uri))

/-- The truthiness test `!this.mapping.layerGrouping.layerClass` of
`extractLayers`: an absent or empty-string layer class is "unset". -/
def layerClassTruthy (m : VisualizationMapping) : Option String :=
  match m.layerGrouping.layerClass with
  | some s => if s = "" then none else some s
  | none => none

/-- The scan loop of `extractLayers`: subjects typed as the layer class are
materialized and written into the record (later keys overwrite). -/
def extractLayersGo (ds : List RDFQuad) (m : VisualizationMapping) (lc : String)
    (acc : List (String × MultiverseLayer)) :
    List RDFQuad → Except String (List (String × MultiverseLayer))
  | [] => .ok acc
  | q :: rest =>
    if q.predicate = rdfTypeIRI ∧ q.object = .namedNode lc then
      Except.bind (buildLayerFromRDF ds m q.subject) (fun kl? =>
        match kl? with
        | some (k, l) => extractLayersGo ds m lc (mapSet acc k l) rest
        | none => extractLayersGo ds m lc acc rest)
    else extractLayersGo ds m lc acc rest

/-- `RDFDataLoader.extractLayers`: empty when no (truthy) layer class is
configured. -/
def extractLayers (ds : List RDFQuad) (m : VisualizationMapping) :
    Except String (List (String × MultiverseLayer)) :=
  match layerClassTruthy m with
  | none => .ok []
  | some lc => extractLayersGo ds m lc [] ds

/-- `SharedConnection` of `types/index.ts`. -/
structure SharedConnection where
  id : String
  connectTo : String
deriving DecidableEq

/-- `RDFDataLoader.extractCrossLayerConnections`. -/
def extractCrossLayerConnections (ds : List RDFQuad) (m : VisualizationMapping) :
    List SharedConnection :=
  match m.crossLayerConnections with
  | none => []
  | some c => ds.filterMap (fun q =>
      if q.predicate = c.rdfPredicate then some ⟨q.subject, termValue q.object⟩ else none)

/-- `RDFQueryResult` of `types/index.ts` (layers is a string-keyed record,
modelled as an insertion-ordered association list). -/
structure RDFQueryResult where
  nodes : List MultiverseNode
  triples : List MultiverseTriple
  layers : List (String × MultiverseLayer)
  sharedConnections : List SharedConnection
  mappingConfig : Option VisualizationMapping

/-- `RDFDataLoader.queryData` on an already-loaded store: the four
extraction passes in source order (the `NoDataLoaded` throw concerns the
unloaded-loader state, which the service rules out by loading first). -/
def queryData (ds : List RDFQuad) (m : VisualizationMapping) :
    Except String RDFQueryResult :=
  Except.bind (extractEntities ds m) (fun nodes =>
    Except.bind (extractRelationships ds m) (fun triples =>
      Except.map (fun layers =>
        ⟨nodes, triples, layers, extractCrossLayerConnections ds m, some m⟩)
        (extractLayers ds m)))

/-- The truthiness/typeof check of one node in `validateNodes`
(`data-utils.ts`).  In this model position coordinates are JS numbers by
construction, so the three `typeof === 'number'` conjuncts hold; the type
check against the literal list `['character', 'movie']` is kept verbatim. -/
def validateNode (n : MultiverseNode) : Bool :=
  n.id ≠ "" ∧ n.label.truthy ∧ n.layer.truthy ∧
  (n.type = "character" ∨ n.type = "movie")

/-- `validateNodes` of `data-utils.ts`: false as soon as one node fails the
shape check. -/
def validateNodes (nodes : List MultiverseNode) : Bool :=
  nodes.all validateNode

/-- JS `typeof v === 'number'`. -/
def typeofIsNumber : JSVal → Bool
  | .num _ => true
  | _ => false

/-- `validateLayers` of `data-utils.ts`: every layer needs a truthy name and
numeric color and height. -/
def validateLayers (layers : List (String × MultiverseLayer)) : Bool :=
  layers.all (fun kl =>
    kl.2.name.truthy ∧ typeofIsNumber kl.2.color ∧ typeofIsNumber kl.2.height)

/-- `MultiverseDataService.validateData`: the structural array/object checks
hold by typing in the model; the node and layer shape checks throw the
corresponding errors. -/
def validateData (d : RDFQueryResult) : Except String Unit :=
  if ¬ validateNodes d.nodes then .error "Node validation failed"
  else if ¬ validateLayers d.layers then .error "Layer validation failed"
  else .ok ()

/-- Registry errors thrown by `MappingConfigurationManager` (each JS `Error`
message template becomes one constructor carrying its data). -/
inductive RegErr where
  | configurationInvalid : String → List String → RegErr
  | configurationNotFound : String → RegErr
  | sourceNotFound : String → RegErr
  | cannotRemoveDefault : RegErr
  | loadFailed : String → RegErr → RegErr
deriving DecidableEq

/-- The state of a `MappingConfigurationManager`: the insertion-ordered
configuration map and the active configuration id. -/
structure ManagerState where
  configurations : List (String × VisualizationMapping)
  activeConfigurationId : String

/-- `MappingConfigurationManager.registerConfiguration`: validate, throw
with the violation list when non-empty (leaving the state untouched), store
otherwise. -/
def registerConfiguration (st : ManagerState) (id : String)
    (m : VisualizationMapping) : Except RegErr Unit × ManagerState :=
  if (validateMapping m).length > 0 then
    (.error (.configurationInvalid id (validateMapping m)), st)
  else (.ok (), { st with configurations := mapSet st.configurations id m })

/-- `MappingConfigurationManager.getConfiguration` (`Map.get` with a null
default). -/
def getConfiguration (st : ManagerState) (id : String) : Option VisualizationMapping :=
  st.configurations.lookup id

/-- `MappingConfigurationManager.getActiveConfiguration` with its defensive
fallback to the built-in default. -/
def getActiveConfiguration (st : ManagerState) : VisualizationMapping :=
  match getConfiguration st st.activeConfigurationId with
  | some m => m
  | none => DEFAULT_MULTIVERSE_MAPPING

/-- `MappingConfigurationManager.setActiveConfiguration`. -/
def setActiveConfiguration (st : ManagerState) (id : String) :
    Except RegErr Unit × ManagerState :=
  if (getConfiguration st id).isNone then (.error (.configurationNotFound id), st)
  else (.ok (), { st with activeConfigurationId := id })

/-- `MappingConfigurationManager.removeConfiguration`: the default is
protected; removing the active configuration resets the active pointer. -/
def removeConfiguration (st : ManagerState) (id : String) :
    Except RegErr Bool × ManagerState :=
  if id = "default" then (.error .cannotRemoveDefault, st)
  else
    let st1 := if st.activeConfigurationId = id
      then { st with activeConfigurationId := "default" } else st
    (.ok (st1.configurations.any (fun kv => kv.1 = id)),
     { st1 with configurations := st1.configurations.filter (fun kv => kv.1 ≠ id) })

/-- The observable effect of `JSON.parse(JSON.stringify(config))` on a
configuration: every data field survives unchanged, while the
function-valued fields (`transform` on each property rule and
`extractLayerId`) are dropped, because `JSON.stringify` omits
function-valued properties. -/
def jsonRoundTrip (m : VisualizationMapping) : VisualizationMapping :=
  { m with
    properties := m.properties.map (fun p => { p with transform := none }),
    layerGrouping := { m.layerGrouping with extractLayerId := none } }

/-- `MappingConfigurationManager.cloneConfiguration`: missing source throws;
otherwise the JSON round-trip of the source is registered under the new id
exactly as `registerConfiguration` does. -/
def cloneConfiguration (st : ManagerState) (sourceId newId : String) :
    Except RegErr Unit × ManagerState :=
  match getConfiguration st sourceId with
  | none => (.error (.sourceNotFound sourceId), st)
  | some sourceConfig => registerConfiguration st newId (jsonRoundTrip sourceConfig)

/-- `MappingConfigurationManager.loadConfigurationFromJSON` on an
already-parsed configuration object (for such values the
`isValidMappingStructure` shape test is true by typing): any registration
failure is re-thrown wrapped. -/
def loadConfigurationFromJSON (st : ManagerState) (id : String)
    (m : VisualizationMapping) : Except RegErr Unit × ManagerState :=
  match registerConfiguration st id m with
  | (.ok _, st2) => (.ok (), st2)
  | (.error e, st2) => (.error (.loadFailed id e), st2)

/-- `MappingConfigurationManager.reset`: clear and reinstall the three
built-ins directly, active back to default. -/
def resetManager (_st : ManagerState) : ManagerState :=
  { configurations :=
      mapSet (mapSet (mapSet [] "default" DEFAULT_MULTIVERSE_MAPPING)
        "multiverse" DEFAULT_MULTIVERSE_MAPPING) "orgchart" EXAMPLE_ORG_CHART_MAPPING,
    activeConfigurationId := "default" }

/-- The `MappingConfigurationManager` constructor: register the three
built-in configurations in order. -/
def initialManager : ManagerState :=
  (registerConfiguration
    (registerConfiguration
      (registerConfiguration ⟨[], "default"⟩ "default" DEFAULT_MULTIVERSE_MAPPING).2
      "multiverse" DEFAULT_MULTIVERSE_MAPPING).2
    "orgchart" EXAMPLE_ORG_CHART_MAPPING).2

/-- `MultiverseDataService.loadDataWithConfiguration` with the external
fetch/parse step abstracted to the already-parsed store `ds`: resolve the
configuration, run the extraction, run the post-hoc result validation, and
return the data (caching does not alter the returned value). -/
def loadDataWithConfiguration (st : ManagerState) (ds : List RDFQuad)
    (configurationId : String) : Except String RDFQueryResult :=
  match getConfiguration st configurationId with
  | none => .error ("Configuration \"" ++ configurationId ++ "\" not found")
  | some m =>
    Except.bind (queryData ds m) (fun data =>
      Except.map (fun _ => data) (validateData data))

/-- The state of one `loadData` caller, segmented at its `await` points:
before the guard check, parked in the polling loop, awaiting the underlying
load, or returned with a result. -/
inductive TaskState (α : Type) where
  | entry : TaskState α
  | waiting : TaskState α
  | loading : TaskState α
  | done : α → TaskState α
deriving DecidableEq

/-- The shared `MultiverseDataService` state for the single-flight model of
`loadData` (`multiverse-data.ts`), with two concurrent callers and a count
of underlying loads issued. -/
structure SvcState (α : Type) where
  cached : Option α
  isLoading : Bool
  loads : Nat
  t1 : TaskState α
  t2 : TaskState α
deriving DecidableEq

/-- A fresh service with two callers about to invoke `loadData`. -/
def initSvc {α : Type} : SvcState α := ⟨none, false, 0, .entry, .entry⟩

/-- Run-to-completion execution of one caller's next segment of `loadData`
(JS interleaves only at `await`): on entry, return the cache if present,
park in the polling loop when `isLoading` is set, or set the guard and
issue the underlying load; on wake-up from the 100 ms poll (modelled as an
untimed retry), re-check the guard and then the cache; on load completion
(assumed successful, producing `r0`), fill the cache, clear the guard in the
`finally` block and return. -/
def runSegment {α : Type} (r0 : α) (cached : Option α) (isLoading : Bool)
    (loads : Nat) : TaskState α → Option α × Bool × Nat × TaskState α
  | .entry =>
    match cached with
    | some r => (cached, isLoading, loads, .done r)
    | none =>
      if isLoading then (cached, isLoading, loads, .waiting)
      else (cached, true, loads + 1, .loading)
  | .waiting =>
    if isLoading then (cached, isLoading, loads, .waiting)
    else
      match cached with
      | some r => (cached, isLoading, loads, .done r)
      | none => (cached, true, loads + 1, .loading)
  | .loading => (some r0, false, loads, .done r0)
  | .done r => (cached, isLoading, loads, .done r)

/-- One scheduler step: run the chosen caller's next segment. -/
def svcStep {α : Type} (r0 : α) (s : SvcState α) (pick : Bool) : SvcState α :=
  if pick then
    let (c, b, n, t) := runSegment r0 s.cached s.isLoading s.loads s.t1
    ⟨c, b, n, t, s.t2⟩
  else
    let (c, b, n, t) := runSegment r0 s.cached s.isLoading s.loads s.t2
    ⟨c, b, n, s.t1, t⟩

/-- Execution under an arbitrary finite schedule of caller wake-ups. -/
def svcRun {α : Type} (r0 : α) : List Bool → SvcState α → SvcState α
  | [], s => s
  | pick :: rest, s => svcRun r0 rest (svcStep r0 s pick)

deriving instance DecidableEq for Except

/-- A configuration none of whose executable parts can throw: every
property-rule transform returns normally on every input, and
`extractLayerId` is present.  All configurations constructed in the
repository satisfy this; a JS caller may register one that does not. -/
def NoThrowConfig (m : VisualizationMapping) : Prop :=
  (∀ p ∈ m.properties, ∀ v, ∃ u, transformApply p v = .ok u) ∧
  m.layerGrouping.extractLayerId.isSome

/-- The `typeof transformedValue === 'object' && transformedValue.x !==
undefined` test selecting the structured branch of the position routing. -/
def isStructuredPos : JSVal → Bool
  | .obj (some _) _ _ => true
  | _ => false

/-- The implicit registry invariant: every stored configuration has an
empty violation list. -/
def RegistryInvariant (st : ManagerState) : Prop :=
  ∀ e ∈ st.configurations, validateMapping e.2 = []

/-- Whether a caller is currently awaiting the underlying load. -/
def isLoadingTask {α : Type} : TaskState α → Bool
  | .loading => true
  | _ => false

/-- Inductive invariant of the single-flight model: the guard flag tracks
exactly one in-flight load, the cache only ever holds the load result, the
load counter equals in-flight plus completed loads, and a finished caller
returned the load result. -/
def SvcInv {α : Type} (r0 : α) (s : SvcState α) : Prop :=
  (s.cached = none ∨ s.cached = some r0) ∧
  (s.isLoading = (isLoadingTask s.t1 || isLoadingTask s.t2)) ∧
  ¬(isLoadingTask s.t1 = true ∧ isLoadingTask s.t2 = true) ∧
  ((isLoadingTask s.t1 || isLoadingTask s.t2) = true → s.cached = none) ∧
  (s.loads = (if (isLoadingTask s.t1 || isLoadingTask s.t2) = true then 1 else 0) +
    (if s.cached.isSome then 1 else 0)) ∧
  (∀ r, s.t1 = .done r → r = r0 ∧ s.cached = some r0) ∧
  (∀ r, s.t2 = .done r → r = r0 ∧ s.cached = some r0)

/-- Swapping the two callers of the single-flight model. -/
def swapSvc {α : Type} (s : SvcState α) : SvcState α :=
  ⟨s.cached, s.isLoading, s.loads, s.t2, s.t1⟩

/-- An organizational-chart store with one fully-populated `foaf:Person`
subject, used against `EXAMPLE_ORG_CHART_MAPPING`. -/
def dsOrg : List RDFQuad := [
  ⟨"http://example.org/people/alice", rdfTypeIRI, .namedNode "http://xmlns.com/foaf/0.1/Person"⟩,
  ⟨"http://example.org/people/alice", "http://xmlns.com/foaf/0.1/name", .literal "Alice"⟩,
  ⟨"http://example.org/people/alice", "http://example.org/org/hasPosition", .literal "1,2,3"⟩,
  ⟨"http://example.org/people/alice", "http://example.org/org/belongsToDepartment", .namedNode "http://example.org/org/dept/Eng"⟩]

/-- Specification scenario 1 configuration: one entity type with required
label, position and layer rules and no transforms. -/
def cfgScenario : VisualizationMapping :=
  { entityTypes := [⟨"http://v/Character", "Character", "character"⟩],
    properties := [
      ⟨"http://v/label", .label, true, none⟩,
      ⟨"http://v/pos", .position, true, none⟩,
      ⟨"http://v/layer", .layer, true, none⟩],
    relationships := [],
    layerGrouping := ⟨"http://v/layer", some splitPopOr, none⟩,
    crossLayerConnections := none,
    namespaces := [("v", "http://v/")] }

/-- Specification scenario 1 store: subject `a` fully populated, subject
`b` missing its position statement. -/
def dsScenario : List RDFQuad := [
  ⟨"http://a", rdfTypeIRI, .namedNode "http://v/Character"⟩,
  ⟨"http://a", "http://v/label", .literal "A"⟩,
  ⟨"http://a", "http://v/pos", .literal "1,2,3"⟩,
  ⟨"http://a", "http://v/layer", .literal "L"⟩,
  ⟨"http://b", rdfTypeIRI, .namedNode "http://v/Character"⟩,
  ⟨"http://b", "http://v/label", .literal "B"⟩,
  ⟨"http://b", "http://v/layer", .literal "L"⟩]

/-- A transform that always throws, as a JS caller may configure. -/
def throwingTransform : Transform := fun _ => .error "boom"

/-- Scenario-1 configuration whose label transform throws. -/
def cfgThrow : VisualizationMapping :=
  { cfgScenario with properties := [
      ⟨"http://v/label", .label, true, some throwingTransform⟩,
      ⟨"http://v/pos", .position, true, none⟩,
      ⟨"http://v/layer", .layer, true, none⟩] }

/-- A second throwing transform with a distinct message. -/
def throwingTransform2 : Transform := fun _ => .error "transform exploded"

/-- A valid configuration whose label transform throws, for the
transform-failure claim. -/
def cfgT3 : VisualizationMapping :=
  { cfgScenario with properties := [
      ⟨"http://v/label", .label, true, some throwingTransform2⟩,
      ⟨"http://v/pos", .position, true, none⟩,
      ⟨"http://v/layer", .layer, true, none⟩] }

/-- One fully-populated subject for the transform-failure claim. -/
def dsT3 : List RDFQuad := [
  ⟨"http://s3", rdfTypeIRI, .namedNode "http://v/Character"⟩,
  ⟨"http://s3", "http://v/label", .literal "S"⟩,
  ⟨"http://s3", "http://v/pos", .literal "1,2,3"⟩,
  ⟨"http://s3", "http://v/layer", .literal "L"⟩]

/-- A store whose position literal has three non-numeric comma-separated
components. -/
def ds7 : List RDFQuad := [
  ⟨"http://s", rdfTypeIRI, .namedNode "http://v/Character"⟩,
  ⟨"http://s", "http://v/label", .literal "S"⟩,
  ⟨"http://s", "http://v/pos", .literal "a,b,c"⟩,
  ⟨"http://s", "http://v/layer", .literal "L"⟩]

/-- A one-statement store whose position literal has two components. -/
def ds7b : List RDFQuad := [⟨"http://s", "http://v/pos", .literal "1,2"⟩]

/-- The position rule of the scenario configuration (no transform). -/
def posRule : PropertyMapping := ⟨"http://v/pos", .position, true, none⟩

/-- A universe subject whose IRI ends in a slash, so the default
`extractLayerId` derives the empty key, together with a resolvable label. -/
def dsU : List RDFQuad := [
  ⟨"http://example.org/universe/", rdfTypeIRI, .namedNode "http://example.org/multiverse/vocab/Universe"⟩,
  ⟨"http://example.org/universe/", "http://www.w3.org/2000/01/rdf-schema#label", .literal "U"⟩]

/-- A universe subject with a regular IRI and a label but no color/height
statements. -/
def dsU2 : List RDFQuad := [
  ⟨"http://example.org/universe/U1", rdfTypeIRI, .namedNode "http://example.org/multiverse/vocab/Universe"⟩,
  ⟨"http://example.org/universe/U1", "http://www.w3.org/2000/01/rdf-schema#label", .literal "U"⟩]

/-- A configuration with no entity types (violating the validator). -/
def cfgBad : VisualizationMapping :=
  { cfgScenario with entityTypes := [] }

/-! Helper lemmas. -/

theorem mem_mapSet {α : Type} (l : List (String × α)) (k : String) (v : α)
    (e : String × α) (he : e ∈ mapSet l k v) : e ∈ l ∨ e = (k, v) := by
  unfold mapSet at he
  by_cases h : l.any (fun kv => kv.1 = k)
  · rw [if_pos h] at he
    rcases List.mem_map.mp he with ⟨kv, hkv, hEq⟩
    by_cases hk : kv.1 = k
    · right
      rw [if_pos hk] at hEq
      exact hEq.symm
    · left
      rw [if_neg hk] at hEq
      exact hEq ▸ hkv
  · rw [if_neg h] at he
    rcases List.mem_append.mp he with h1 | h1
    · exact Or.inl h1
    · exact Or.inr (List.mem_singleton.mp h1)

theorem lookup_map_replace {α : Type} (l : List (String × α)) (k : String) (v : α)
    (h : l.any (fun kv => kv.1 = k) = true) :
    (l.map (fun kv => if kv.1 = k then (k, v) else kv)).lookup k = some v := by
  induction l with
  | nil => simp at h
  | cons a tl ih =>
    obtain ⟨a1, a2⟩ := a
    by_cases ha : a1 = k
    · rw [List.map_cons, if_pos (show ((a1, a2) : String × α).1 = k from ha)]
      simp [List.lookup]
    · have htl : tl.any (fun kv => kv.1 = k) = true := by
        rcases List.any_eq_true.mp h with ⟨kv, hkv, hp⟩
        rcases List.mem_cons.mp hkv with rfl | hkv2
        · exact absurd (of_decide_eq_true hp) ha
        · exact List.any_eq_true.mpr ⟨kv, hkv2, hp⟩
      have hb : (k == a1) = false := beq_eq_false_iff_ne.mpr (Ne.symm ha)
      rw [List.map_cons, if_neg (show ¬ ((a1, a2) : String × α).1 = k from ha)]
      simp only [List.lookup, hb]
      exact ih htl

theorem lookup_append_new {α : Type} (l : List (String × α)) (k : String) (v : α) :
    (l.any (fun kv => kv.1 = k) = false) →
    (l ++ [(k, v)]).lookup k = some v := by
  intro h
  induction l with
  | nil => simp [List.lookup]
  | cons a tl ih =>
    obtain ⟨a1, a2⟩ := a
    simp only [List.any_cons, Bool.or_eq_false_iff] at h
    have ha : ¬ (a1 = k) := by
      intro hc
      rw [hc] at h
      simp at h
    have hb : (k == a1) = false := beq_eq_false_iff_ne.mpr (Ne.symm ha)
    simp only [List.cons_append, List.lookup, hb]
    exact ih h.2

theorem lookup_mapSet_self {α : Type} (l : List (String × α)) (k : String) (v : α) :
    (mapSet l k v).lookup k = some v := by
  unfold mapSet
  by_cases h : l.any (fun kv => kv.1 = k)
  · rw [if_pos h]
    exact lookup_map_replace l k v h
  · rw [if_neg h]
    exact lookup_append_new l k v (Bool.of_not_eq_true h)

theorem validateMapping_jsonRoundTrip (m : VisualizationMapping) :
    validateMapping (jsonRoundTrip m) = validateMapping m := by
  unfold validateMapping jsonRoundTrip
  simp [List.any_map, Function.comp]

theorem ite_isEmpty_eq {α β : Type} [DecidableEq β] (l : List β) (a b : List α) :
    (if l.isEmpty then a else b) = (if l = [] then a else b) := by
  cases l <;> simp

theorem dedup_length_ne (l : List String) :
    (l.dedup.length ≠ l.length) ↔ ¬ l.Nodup := by
  constructor
  · intro h hnd
    exact h (by rw [List.Nodup.dedup hnd])
  · intro hnd h
    exact hnd (List.dedup_eq_self.mp (List.Sublist.eq_of_length (List.dedup_sublist l) h))

theorem ite_any_exists {α : Type} (l : List α) (pb : α → Bool) (P : α → Prop)
    [DecidablePred P] (hp : ∀ x, pb x = true ↔ P x) (a b : List String) :
    (if l.any pb then a else b) = (if ∃ x ∈ l, P x then a else b) := by
  apply if_congr _ rfl rfl
  rw [List.any_eq_true]
  constructor
  · rintro ⟨x, hx, hpx⟩
    exact ⟨x, hx, (hp x).mp hpx⟩
  · rintro ⟨x, hx, hpx⟩
    exact ⟨x, hx, (hp x).mpr hpx⟩

theorem ite_dedup_nodup (l : List String) (s : String) :
    (if l.dedup.length ≠ l.length then [s] else []) =
    (if l.Nodup then ([] : List String) else [s]) := by
  by_cases h : l.Nodup
  · rw [if_pos h, if_neg]
    intro hc
    exact (dedup_length_ne l).mp hc h
  · rw [if_neg h, if_pos ((dedup_length_ne l).mpr h)]

theorem iteNilPos (C : Prop) [Decidable C] (s : String) :
    ((if C then [s] else ([] : List String)) = []) ↔ ¬C := by
  by_cases h : C <;> simp [h]

theorem iteNilNeg (C : Prop) [Decidable C] (s : String) :
    ((if C then ([] : List String) else [s]) = []) ↔ C := by
  by_cases h : C <;> simp [h]


theorem applyPropertyRule_absent (ds : List RDFQuad) (uri : String)
    (acc : NodeBuild × List String) (p : PropertyMapping)
    (hv : truthyValue (getPropertyValue ds uri p.rdfProperty) = none) :
    applyPropertyRule ds uri acc p =
      (if p.required then .ok (acc.1, acc.2 ++ [p.rdfProperty]) else .ok acc) := by
  unfold applyPropertyRule
  rw [hv]

theorem applyPropertyRule_present (ds : List RDFQuad) (uri : String)
    (acc : NodeBuild × List String) (p : PropertyMapping) (raw : String)
    (hv : truthyValue (getPropertyValue ds uri p.rdfProperty) = some raw) :
    applyPropertyRule ds uri acc p =
      Except.map (fun tv => (routeAttribute p raw tv acc.1, acc.2)) (transformApply p raw) := by
  unfold applyPropertyRule
  rw [hv]

theorem applyPropertyRule_ok (ds : List RDFQuad) (uri : String)
    (p : PropertyMapping) (h : ∀ v, ∃ u, transformApply p v = .ok u)
    (acc : NodeBuild × List String) :
    ∃ acc2, applyPropertyRule ds uri acc p = .ok acc2 := by
  cases hv : truthyValue (getPropertyValue ds uri p.rdfProperty) with
  | none =>
    rw [applyPropertyRule_absent ds uri acc p hv]
    by_cases hr : p.required <;> simp [hr]
  | some raw =>
    obtain ⟨u, hu⟩ := h raw
    rw [applyPropertyRule_present ds uri acc p raw hv, hu]
    exact ⟨_, rfl⟩

theorem applyPropertyRule_snd (ds : List RDFQuad) (uri : String)
    (acc acc2 : NodeBuild × List String) (p : PropertyMapping)
    (h : applyPropertyRule ds uri acc p = .ok acc2) :
    ∃ t, acc2.2 = acc.2 ++ t := by
  cases hv : truthyValue (getPropertyValue ds uri p.rdfProperty) with
  | none =>
    rw [applyPropertyRule_absent ds uri acc p hv] at h
    by_cases hr : p.required
    · rw [if_pos hr] at h
      exact ⟨[p.rdfProperty], by rw [← Except.ok.inj h]⟩
    · rw [if_neg hr] at h
      exact ⟨[], by rw [← Except.ok.inj h]; simp⟩
  | some raw =>
    rw [applyPropertyRule_present ds uri acc p raw hv] at h
    cases ht : transformApply p raw with
    | error e => rw [ht] at h; exact absurd h (by simp [Except.map])
    | ok u =>
      rw [ht] at h
      simp only [Except.map] at h
      exact ⟨[], by rw [← Except.ok.inj h]; simp⟩

theorem applyPropertyRules_snd (ds : List RDFQuad) (uri : String)
    (l : List PropertyMapping) (acc res : NodeBuild × List String)
    (h : applyPropertyRules ds uri l acc = .ok res) :
    ∃ t, res.2 = acc.2 ++ t := by
  induction l generalizing acc with
  | nil =>
    unfold applyPropertyRules at h
    exact ⟨[], by rw [← Except.ok.inj h]; simp⟩
  | cons p ps ih =>
    unfold applyPropertyRules at h
    cases h1 : applyPropertyRule ds uri acc p with
    | error e => rw [h1] at h; exact absurd h (by simp [Except.bind])
    | ok acc1 =>
      rw [h1] at h
      simp only [Except.bind] at h
      obtain ⟨t1, ht1⟩ := applyPropertyRule_snd ds uri acc acc1 p h1
      obtain ⟨t2, ht2⟩ := ih acc1 h
      exact ⟨t1 ++ t2, by rw [ht2, ht1, List.append_assoc]⟩

theorem applyPropertyRules_ok (ds : List RDFQuad) (uri : String)
    (l : List PropertyMapping) (h : ∀ p ∈ l, ∀ v, ∃ u, transformApply p v = .ok u)
    (acc : NodeBuild × List String) :
    ∃ res, applyPropertyRules ds uri l acc = .ok res := by
  induction l generalizing acc with
  | nil => exact ⟨acc, rfl⟩
  | cons p ps ih =>
    obtain ⟨acc1, h1⟩ := applyPropertyRule_ok ds uri p (h p (List.mem_cons_self p ps)) acc
    obtain ⟨res, h2⟩ := ih (fun q hq v => h q (List.mem_cons_of_mem p hq) v) acc1
    refine ⟨res, ?_⟩
    unfold applyPropertyRules
    rw [h1]
    simpa [Except.bind] using h2

theorem applyPropertyRules_missing (ds : List RDFQuad) (uri : String)
    (l : List PropertyMapping) (p : PropertyMapping) (hp : p ∈ l)
    (hreq : p.required = true)
    (hmiss : truthyValue (getPropertyValue ds uri p.rdfProperty) = none)
    (acc res : NodeBuild × List String)
    (h : applyPropertyRules ds uri l acc = .ok res) :
    res.2 ≠ [] := by
  induction l generalizing acc with
  | nil => exact absurd hp (List.not_mem_nil p)
  | cons q qs ih =>
    unfold applyPropertyRules at h
    cases h1 : applyPropertyRule ds uri acc q with
    | error e => rw [h1] at h; exact absurd h (by simp [Except.bind])
    | ok acc1 =>
      rw [h1] at h
      simp only [Except.bind] at h
      rcases List.mem_cons.mp hp with rfl | hp2
      · have hacc1 : acc1.2 = acc.2 ++ [p.rdfProperty] := by
          rw [applyPropertyRule_absent ds uri acc p hmiss, if_pos hreq] at h1
          rw [← Except.ok.inj h1]
        obtain ⟨t, ht⟩ := applyPropertyRules_snd ds uri qs acc1 res h
        rw [ht, hacc1]
        simp
      · exact ih hp2 acc1 h

theorem finalizeEntity_id (uri tid : String) (nb : NodeBuild)
    (req : List String) (n : MultiverseNode)
    (h : finalizeEntity uri tid nb req = some n) : n.id = uri := by
  unfold finalizeEntity at h
  split at h
  · exact absurd h (by simp)
  · split at h
    · split at h
      · rw [← Option.some.inj h]
      · exact absurd h (by simp)
    · exact absurd h (by simp)

theorem buildEntityFromRDF_ok (ds : List RDFQuad) (m : VisualizationMapping)
    (uri tid : String)
    (h : ∀ p ∈ m.properties, ∀ v, ∃ u, transformApply p v = .ok u) :
    ∃ r, buildEntityFromRDF ds m uri tid = .ok r := by
  obtain ⟨acc, hacc⟩ := applyPropertyRules_ok ds uri m.properties h (emptyBuild, [])
  exact ⟨_, by unfold buildEntityFromRDF; rw [hacc]; rfl⟩

theorem buildEntityFromRDF_id (ds : List RDFQuad) (m : VisualizationMapping)
    (uri tid : String) (n : MultiverseNode)
    (h : buildEntityFromRDF ds m uri tid = .ok (some n)) : n.id = uri := by
  unfold buildEntityFromRDF at h
  cases hacc : applyPropertyRules ds uri m.properties (emptyBuild, []) with
  | error e => rw [hacc] at h; exact absurd h (by simp [Except.map])
  | ok acc =>
    rw [hacc] at h
    simp only [Except.map] at h
    exact finalizeEntity_id uri tid acc.1 acc.2 n (Except.ok.inj h)

theorem buildEntityFromRDF_missing (ds : List RDFQuad) (m : VisualizationMapping)
    (uri tid : String) (p : PropertyMapping) (hp : p ∈ m.properties)
    (hreq : p.required = true)
    (hmiss : truthyValue (getPropertyValue ds uri p.rdfProperty) = none)
    (h : ∀ q ∈ m.properties, ∀ v, ∃ u, transformApply q v = .ok u) :
    buildEntityFromRDF ds m uri tid = .ok none := by
  obtain ⟨acc, hacc⟩ := applyPropertyRules_ok ds uri m.properties h (emptyBuild, [])
  have hne : acc.2 ≠ [] :=
    applyPropertyRules_missing ds uri m.properties p hp hreq hmiss (emptyBuild, []) acc hacc
  unfold buildEntityFromRDF
  rw [hacc]
  simp only [Except.map]
  unfold finalizeEntity
  rw [if_pos hne]

theorem extractEntitiesGo_ok (ds : List RDFQuad) (m : VisualizationMapping)
    (h : ∀ p ∈ m.properties, ∀ v, ∃ u, transformApply p v = .ok u)
    (l : List RDFQuad) : ∃ ns, extractEntitiesGo ds m l = .ok ns := by
  induction l with
  | nil => exact ⟨[], rfl⟩
  | cons q rest ih =>
    obtain ⟨ns, hns⟩ := ih
    unfold extractEntitiesGo
    by_cases hq : q.predicate = rdfTypeIRI
    · rw [if_pos hq]
      cases hl : (entityTypeMap m).lookup (termValue q.object) with
      | some tid =>
        dsimp only
        obtain ⟨r, hr⟩ := buildEntityFromRDF_ok ds m q.subject tid h
        rw [hr, hns]
        cases r with
        | some n => exact ⟨n :: ns, rfl⟩
        | none => exact ⟨ns, rfl⟩
      | none => exact ⟨ns, hns⟩
    · rw [if_neg hq]
      exact ⟨ns, hns⟩

theorem mem_extractEntitiesGo (ds : List RDFQuad) (m : VisualizationMapping)
    (l : List RDFQuad) (ns : List MultiverseNode)
    (h : extractEntitiesGo ds m l = .ok ns) (n : MultiverseNode) :
    n ∈ ns ↔ ∃ q ∈ l, q.predicate = rdfTypeIRI ∧
      ∃ tid, (entityTypeMap m).lookup (termValue q.object) = some tid ∧
        buildEntityFromRDF ds m q.subject tid = .ok (some n) := by
  induction l generalizing ns with
  | nil =>
    unfold extractEntitiesGo at h
    rw [← Except.ok.inj h]
    simp
  | cons q rest ih =>
    unfold extractEntitiesGo at h
    by_cases hq : q.predicate = rdfTypeIRI
    · rw [if_pos hq] at h
      cases hl : (entityTypeMap m).lookup (termValue q.object) with
      | some tid =>
        rw [hl] at h
        dsimp only at h
        cases hb : buildEntityFromRDF ds m q.subject tid with
        | error e => rw [hb] at h; exact absurd h (by simp [Except.bind])
        | ok n? =>
          rw [hb] at h
          simp only [Except.bind] at h
          cases hr : extractEntitiesGo ds m rest with
          | error e => rw [hr] at h; exact absurd h (by simp [Except.map])
          | ok ns2 =>
            rw [hr] at h
            simp only [Except.map] at h
            have hns := Except.ok.inj h
            constructor
            · intro hmem
              cases n? with
              | some n0 =>
                rw [← hns] at hmem
                rcases List.mem_cons.mp hmem with rfl | hmem2
                · exact ⟨q, List.mem_cons_self q rest, hq, tid, hl, hb⟩
                · obtain ⟨q2, hq2, h1, tid2, h2, h3⟩ := (ih ns2 hr).mp hmem2
                  exact ⟨q2, List.mem_cons_of_mem q hq2, h1, tid2, h2, h3⟩
              | none =>
                rw [← hns] at hmem
                obtain ⟨q2, hq2, h1, tid2, h2, h3⟩ := (ih ns2 hr).mp hmem
                exact ⟨q2, List.mem_cons_of_mem q hq2, h1, tid2, h2, h3⟩
            · rintro ⟨q2, hq2, h1, tid2, h2, h3⟩
              rcases List.mem_cons.mp hq2 with rfl | hq3
              · rw [hl] at h2
                have htid : tid = tid2 := Option.some.inj h2
                rw [← htid] at h3
                rw [hb] at h3
                have : n? = some n := Except.ok.inj h3
                rw [this] at hns
                rw [← hns]
                exact List.mem_cons_self n ns2
              · have hmem2 : n ∈ ns2 :=
                  (ih ns2 hr).mpr ⟨q2, hq3, h1, tid2, h2, h3⟩
                rw [← hns]
                cases n? with
                | some n0 => exact List.mem_cons_of_mem n0 hmem2
                | none => exact hmem2
      | none =>
        rw [hl] at h
        dsimp only at h
        rw [ih ns h]
        constructor
        · rintro ⟨q2, hq2, h1, tid2, h2, h3⟩
          exact ⟨q2, List.mem_cons_of_mem q hq2, h1, tid2, h2, h3⟩
        · rintro ⟨q2, hq2, h1, tid2, h2, h3⟩
          rcases List.mem_cons.mp hq2 with rfl | hq3
          · rw [hl] at h2
            exact absurd h2 (by simp)
          · exact ⟨q2, hq3, h1, tid2, h2, h3⟩
    · rw [if_neg hq] at h
      rw [ih ns h]
      constructor
      · rintro ⟨q2, hq2, h1, tid2, h2, h3⟩
        exact ⟨q2, List.mem_cons_of_mem q hq2, h1, tid2, h2, h3⟩
      · rintro ⟨q2, hq2, h1, tid2, h2, h3⟩
        rcases List.mem_cons.mp hq2 with rfl | hq3
        · exact absurd h1 hq
        · exact ⟨q2, hq3, h1, tid2, h2, h3⟩

theorem getEntityLayer_ok (ds : List RDFQuad) (m : VisualizationMapping)
    (uri : String) (h : m.layerGrouping.extractLayerId.isSome) :
    ∃ k, getEntityLayer ds m uri = .ok k := by
  unfold getEntityLayer
  cases hv : truthyValue (getPropertyValue ds uri m.layerGrouping.layerProperty) with
  | none => exact ⟨"", rfl⟩
  | some v =>
    unfold applyExtractLayerId
    cases hf : m.layerGrouping.extractLayerId with
    | some f => exact ⟨f v, rfl⟩
    | none => rw [hf] at h; exact absurd h (by simp)

theorem extractRelationshipsGo_ok (ds : List RDFQuad) (m : VisualizationMapping)
    (h : m.layerGrouping.extractLayerId.isSome) (l : List RDFQuad) :
    ∃ ts, extractRelationshipsGo ds m l = .ok ts := by
  induction l with
  | nil => exact ⟨[], rfl⟩
  | cons q rest ih =>
    obtain ⟨ts, hts⟩ := ih
    unfold extractRelationshipsGo
    by_cases hq : (m.relationships.map (fun r => r.rdfPredicate)).contains q.predicate
    · rw [if_pos hq]
      obtain ⟨k, hk⟩ := getEntityLayer_ok ds m q.subject h
      rw [hk, hts]
      exact ⟨_, rfl⟩
    · rw [if_neg hq]
      exact ⟨ts, hts⟩

theorem applyLayerRule_ok (ds : List RDFQuad) (uri : String)
    (p : PropertyMapping) (h : ∀ v, ∃ u, transformApply p v = .ok u)
    (acc : LayerBuild) : ∃ acc2, applyLayerRule ds uri acc p = .ok acc2 := by
  unfold applyLayerRule
  cases hv : truthyValue (getPropertyValue ds uri p.rdfProperty) with
  | none => exact ⟨acc, rfl⟩
  | some raw =>
    dsimp only
    obtain ⟨u, hu⟩ := h raw
    rw [hu]
    exact ⟨_, rfl⟩

theorem resolveLayerPropsGo_ok (ds : List RDFQuad) (uri : String)
    (l : List PropertyMapping)
    (h : ∀ p ∈ l, ∀ v, ∃ u, transformApply p v = .ok u) (acc : LayerBuild) :
    ∃ res, resolveLayerPropsGo ds uri l acc = .ok res := by
  induction l generalizing acc with
  | nil => exact ⟨acc, rfl⟩
  | cons p ps ih =>
    obtain ⟨acc1, h1⟩ := applyLayerRule_ok ds uri p (h p (List.mem_cons_self p ps)) acc
    obtain ⟨res, h2⟩ := ih (fun q hq v => h q (List.mem_cons_of_mem p hq) v) acc1
    refine ⟨res, ?_⟩
    unfold resolveLayerPropsGo
    rw [h1]
    simpa [Except.bind] using h2

theorem buildLayerFromRDF_ok (ds : List RDFQuad) (m : VisualizationMapping)
    (uri : String)
    (hp : ∀ p ∈ m.properties, ∀ v, ∃ u, transformApply p v = .ok u)
    (hf : m.layerGrouping.extractLayerId.isSome) :
    ∃ r, buildLayerFromRDF ds m uri = .ok r := by
  obtain ⟨lb, hlb⟩ := resolveLayerPropsGo_ok ds uri m.properties hp ⟨none, none, none⟩
  unfold buildLayerFromRDF resolveLayerProps applyExtractLayerId
  rw [hlb]
  cases hff : m.layerGrouping.extractLayerId with
  | some f => exact ⟨_, rfl⟩
  | none => rw [hff] at hf; exact absurd hf (by simp)

theorem extractLayersGo_ok (ds : List RDFQuad) (m : VisualizationMapping)
    (lc : String)
    (hp : ∀ p ∈ m.properties, ∀ v, ∃ u, transformApply p v = .ok u)
    (hf : m.layerGrouping.extractLayerId.isSome) (l : List RDFQuad)
    (acc : List (String × MultiverseLayer)) :
    ∃ L, extractLayersGo ds m lc acc l = .ok L := by
  induction l generalizing acc with
  | nil => exact ⟨acc, rfl⟩
  | cons q rest ih =>
    unfold extractLayersGo
    by_cases hq : q.predicate = rdfTypeIRI ∧ q.object = .namedNode lc
    · rw [if_pos hq]
      obtain ⟨r, hr⟩ := buildLayerFromRDF_ok ds m q.subject hp hf
      rw [hr]
      cases r with
      | some kl =>
        obtain ⟨k, lay⟩ := kl
        obtain ⟨L, hL⟩ := ih (mapSet acc k lay)
        exact ⟨L, by simpa [Except.bind] using hL⟩
      | none =>
        obtain ⟨L, hL⟩ := ih acc
        exact ⟨L, by simpa [Except.bind] using hL⟩
    · rw [if_neg hq]
      exact ih acc

theorem extractLayers_ok (ds : List RDFQuad) (m : VisualizationMapping)
    (hp : ∀ p ∈ m.properties, ∀ v, ∃ u, transformApply p v = .ok u)
    (hf : m.layerGrouping.extractLayerId.isSome) :
    ∃ L, extractLayers ds m = .ok L := by
  unfold extractLayers
  cases hc : layerClassTruthy m with
  | none => exact ⟨[], rfl⟩
  | some lc => exact extractLayersGo_ok ds m lc hp hf ds []

theorem queryData_ok_of_noThrow (ds : List RDFQuad) (m : VisualizationMapping)
    (h : NoThrowConfig m) :
    ∃ res, queryData ds m = .ok res ∧ extractEntities ds m = .ok res.nodes := by
  obtain ⟨hp, hf⟩ := h
  obtain ⟨ns, hns⟩ := extractEntitiesGo_ok ds m hp ds
  obtain ⟨ts, hts⟩ := extractRelationshipsGo_ok ds m hf ds
  obtain ⟨L, hL⟩ := extractLayers_ok ds m hp hf
  refine ⟨⟨ns, ts, L, extractCrossLayerConnections ds m, some m⟩, ?_, hns⟩
  unfold queryData extractEntities extractRelationships
  rw [hns, hts]
  simp only [Except.bind]
  rw [hL]
  rfl

theorem extractEntitiesGo_error (ds : List RDFQuad) (m : VisualizationMapping)
    (l : List RDFQuad)
    (h : ∃ q ∈ l, q.predicate = rdfTypeIRI ∧
      ∃ tid, (entityTypeMap m).lookup (termValue q.object) = some tid ∧
        ∃ e, buildEntityFromRDF ds m q.subject tid = .error e) :
    ∃ e2, extractEntitiesGo ds m l = .error e2 := by
  induction l with
  | nil => simp at h
  | cons a rest ih =>
    rcases h with ⟨q, hq, h1, tid, h2, e, h3⟩
    rcases List.mem_cons.mp hq with rfl | hq2
    · unfold extractEntitiesGo
      rw [if_pos h1, h2]
      dsimp only
      rw [h3]
      exact ⟨e, rfl⟩
    · unfold extractEntitiesGo
      by_cases ha : a.predicate = rdfTypeIRI
      · rw [if_pos ha]
        cases hl : (entityTypeMap m).lookup (termValue a.object) with
        | some tid2 =>
          dsimp only
          cases hb : buildEntityFromRDF ds m a.subject tid2 with
          | error eb => exact ⟨eb, rfl⟩
          | ok n? =>
            obtain ⟨e2, hgo⟩ := ih ⟨q, hq2, h1, tid, h2, e, h3⟩
            exact ⟨e2, by simp [Except.bind, Except.map, hgo]⟩
        | none => exact ih ⟨q, hq2, h1, tid, h2, e, h3⟩
      · rw [if_neg ha]
        exact ih ⟨q, hq2, h1, tid, h2, e, h3⟩

theorem queryData_error_of_entities (ds : List RDFQuad) (m : VisualizationMapping)
    (e : String) (h : extractEntities ds m = .error e) :
    queryData ds m = .error e := by
  unfold queryData
  rw [h]
  rfl

theorem isLoadingTask_entry {α : Type} : isLoadingTask (TaskState.entry : TaskState α) = false := rfl

theorem isLoadingTask_waiting {α : Type} : isLoadingTask (TaskState.waiting : TaskState α) = false := rfl

theorem isLoadingTask_loading {α : Type} : isLoadingTask (TaskState.loading : TaskState α) = true := rfl

theorem isLoadingTask_done {α : Type} (r : α) : isLoadingTask (TaskState.done r) = false := rfl

theorem svcInv_swap {α : Type} (r0 : α) (s : SvcState α) (h : SvcInv r0 s) :
    SvcInv r0 (swapSvc s) := by
  obtain ⟨cached, isL, loads, t1, t2⟩ := s
  obtain ⟨h1, h2, h3, h4, h5, h6, h7⟩ := h
  dsimp only at h1 h2 h3 h4 h5 h6 h7
  dsimp only [swapSvc]
  refine ⟨h1, ?_, fun hc => h3 ⟨hc.2, hc.1⟩, ?_, ?_, h7, h6⟩
  · show isL = (isLoadingTask t2 || isLoadingTask t1)
    rw [Bool.or_comm]
    exact h2
  · intro hx
    exact h4 (by rwa [Bool.or_comm] at hx)
  · show loads = _
    rw [Bool.or_comm (isLoadingTask t2) (isLoadingTask t1)]
    exact h5

theorem svcStep_false_swap {α : Type} (r0 : α) (s : SvcState α) :
    svcStep r0 s false = swapSvc (svcStep r0 (swapSvc s) true) := by
  unfold svcStep swapSvc
  rcases hseg : runSegment r0 s.cached s.isLoading s.loads s.t2 with ⟨c, b, n, t⟩
  simp [hseg]

theorem svcStep_inv_t1 {α : Type} (r0 : α) (s : SvcState α) (h : SvcInv r0 s) :
    SvcInv r0 (svcStep r0 s true) := by
  obtain ⟨cached, isL, loads, t1, t2⟩ := s
  obtain ⟨h1, h2, h3, h4, h5, h6, h7⟩ := h
  dsimp only at h1 h2 h3 h4 h5 h6 h7
  cases t1 with
  | entry =>
    cases cached with
    | some r =>
      have hr : r = r0 := by
        rcases h1 with hn | hs
        · exact absurd hn (by simp)
        · exact Option.some.inj hs
      show SvcInv r0 ⟨some r, isL, loads, .done r, t2⟩
      refine ⟨h1, ?_, by simp [isLoadingTask_done], ?_, ?_, ?_, h7⟩
      · simpa [isLoadingTask_entry, isLoadingTask_done] using h2
      · intro hx
        exact h4 (by simpa [isLoadingTask_entry, isLoadingTask_done] using hx)
      · simp only [isLoadingTask_entry, isLoadingTask_done] at h5 ⊢
        exact h5
      · intro r2 hr2
        exact ⟨(TaskState.done.inj hr2).symm.trans hr, by rw [hr]⟩
    | none =>
      cases isL with
      | true =>
        show SvcInv r0 ⟨none, true, loads, .waiting, t2⟩
        refine ⟨Or.inl rfl, ?_, by simp [isLoadingTask_waiting], fun _ => rfl, ?_, ?_, h7⟩
        · simpa [isLoadingTask_entry, isLoadingTask_waiting] using h2
        · simp only [isLoadingTask_entry, isLoadingTask_waiting] at h5 ⊢
          exact h5
        · intro r hr
          exact TaskState.noConfusion hr
      | false =>
        have ht2 : isLoadingTask t2 = false := by
          simpa [isLoadingTask_entry] using h2.symm
        have h5z : loads = 0 := by
          simpa [isLoadingTask_entry, ht2] using h5
        show SvcInv r0 ⟨none, true, loads + 1, .loading, t2⟩
        refine ⟨Or.inl rfl, by simp [isLoadingTask_loading], by simp [ht2], fun _ => rfl, ?_, ?_, h7⟩
        · simp [isLoadingTask_loading, h5z]
        · intro r hr
          exact TaskState.noConfusion hr
  | waiting =>
    cases isL with
    | true =>
      show SvcInv r0 ⟨cached, true, loads, .waiting, t2⟩
      refine ⟨h1, ?_, by simp [isLoadingTask_waiting], ?_, ?_, ?_, h7⟩
      · simpa [isLoadingTask_waiting] using h2
      · intro hx
        exact h4 (by simpa [isLoadingTask_waiting] using hx)
      · simp only [isLoadingTask_waiting] at h5 ⊢
        exact h5
      · intro r hr
        exact TaskState.noConfusion hr
    | false =>
      cases cached with
      | some r =>
        have hr : r = r0 := by
          rcases h1 with hn | hs
          · exact absurd hn (by simp)
          · exact Option.some.inj hs
        show SvcInv r0 ⟨some r, false, loads, .done r, t2⟩
        refine ⟨h1, ?_, by simp [isLoadingTask_done], ?_, ?_, ?_, h7⟩
        · simpa [isLoadingTask_waiting, isLoadingTask_done] using h2
        · intro hx
          exact h4 (by simpa [isLoadingTask_waiting, isLoadingTask_done] using hx)
        · simp only [isLoadingTask_waiting, isLoadingTask_done] at h5 ⊢
          exact h5
        · intro r2 hr2
          exact ⟨(TaskState.done.inj hr2).symm.trans hr, by rw [hr]⟩
      | none =>
        have ht2 : isLoadingTask t2 = false := by
          simpa [isLoadingTask_waiting] using h2.symm
        have h5z : loads = 0 := by
          simpa [isLoadingTask_waiting, ht2] using h5
        show SvcInv r0 ⟨none, true, loads + 1, .loading, t2⟩
        refine ⟨Or.inl rfl, by simp [isLoadingTask_loading], by simp [ht2], fun _ => rfl, ?_, ?_, h7⟩
        · simp [isLoadingTask_loading, h5z]
        · intro r hr
          exact TaskState.noConfusion hr
  | loading =>
    have ht2 : isLoadingTask t2 = false := by
      cases hb : isLoadingTask t2 with
      | false => rfl
      | true => exact absurd ⟨isLoadingTask_loading, hb⟩ h3
    have hcn : cached = none := h4 (by simp [isLoadingTask_loading])
    subst hcn
    have h5o : loads = 1 := by
      simpa [isLoadingTask_loading] using h5
    show SvcInv r0 ⟨some r0, false, loads, .done r0, t2⟩
    refine ⟨Or.inr rfl, by simp [isLoadingTask_done, ht2], by simp [isLoadingTask_done], ?_, ?_, ?_, ?_⟩
    · intro hx
      rw [isLoadingTask_done, ht2] at hx
      exact absurd hx (by simp)
    · simp [isLoadingTask_done, ht2, h5o]
    · intro r hr
      exact ⟨(TaskState.done.inj hr).symm, rfl⟩
    · intro r hr
      exact absurd (h7 r hr).2 (by simp)
  | done r =>
    exact ⟨h1, h2, h3, h4, h5, h6, h7⟩

theorem svcStep_inv {α : Type} (r0 : α) (s : SvcState α) (pick : Bool)
    (h : SvcInv r0 s) : SvcInv r0 (svcStep r0 s pick) := by
  cases pick with
  | true => exact svcStep_inv_t1 r0 s h
  | false =>
    rw [svcStep_false_swap]
    exact svcInv_swap r0 _ (svcStep_inv_t1 r0 _ (svcInv_swap r0 s h))

theorem svcRun_inv {α : Type} (r0 : α) (sched : List Bool) (s : SvcState α)
    (h : SvcInv r0 s) : SvcInv r0 (svcRun r0 sched s) := by
  induction sched generalizing s with
  | nil => exact h
  | cons pick rest ih => exact ih (svcStep r0 s pick) (svcStep_inv r0 s pick h)

theorem initSvc_inv {α : Type} (r0 : α) : SvcInv r0 (initSvc : SvcState α) := by
  refine ⟨Or.inl rfl, rfl, ?_, fun _ => rfl, rfl, ?_, ?_⟩
  · rintro ⟨ha, _⟩
    exact absurd ha (by simp [initSvc, isLoadingTask])
  · intro r hr
    exact TaskState.noConfusion hr
  · intro r hr
    exact TaskState.noConfusion hr

theorem registerConfiguration_inv (st : ManagerState) (id : String)
    (cfg : VisualizationMapping) (h : RegistryInvariant st) :
    RegistryInvariant (registerConfiguration st id cfg).2 := by
  unfold registerConfiguration
  by_cases hv : (validateMapping cfg).length > 0
  · rw [if_pos hv]
    exact h
  · rw [if_neg hv]
    intro e he
    rcases mem_mapSet st.configurations id cfg e he with hin | rfl
    · exact h e hin
    · exact List.length_eq_zero.mp (Nat.eq_zero_of_not_pos hv)

theorem cloneConfiguration_inv (st : ManagerState) (sid nid : String)
    (h : RegistryInvariant st) :
    RegistryInvariant (cloneConfiguration st sid nid).2 := by
  unfold cloneConfiguration
  cases hg : getConfiguration st sid with
  | none => exact h
  | some c => exact registerConfiguration_inv st nid (jsonRoundTrip c) h

theorem loadConfigurationFromJSON_inv (st : ManagerState) (id : String)
    (cfg : VisualizationMapping) (h : RegistryInvariant st) :
    RegistryInvariant (loadConfigurationFromJSON st id cfg).2 := by
  have hreg := registerConfiguration_inv st id cfg h
  unfold loadConfigurationFromJSON
  rcases hre : registerConfiguration st id cfg with ⟨r, st2⟩
  rw [hre] at hreg
  cases r with
  | ok u => exact hreg
  | error e => exact hreg

theorem removeConfiguration_inv (st : ManagerState) (id : String)
    (h : RegistryInvariant st) :
    RegistryInvariant (removeConfiguration st id).2 := by
  unfold removeConfiguration
  by_cases hd : id = "default"
  · rw [if_pos hd]
    exact h
  · rw [if_neg hd]
    intro e he
    dsimp only at he
    by_cases ha : st.activeConfigurationId = id
    · rw [if_pos ha] at he
      exact h e (List.mem_filter.mp he).1
    · rw [if_neg ha] at he
      exact h e (List.mem_filter.mp he).1

theorem resetManager_inv (st : ManagerState) :
    RegistryInvariant (resetManager st) := by
  have h : RegistryInvariant (resetManager ⟨[], "default"⟩) := by
    unfold RegistryInvariant resetManager
    decide
  intro e he
  exact h e he

/-! Claim theorems. -/

/-- Claim C5: `validateMapping` is a pure total function (in this embedding
it cannot throw) that runs its checks in the fixed order — entityTypes
non-empty; required label rule; required position rule; required layer
rule; typeIds pairwise distinct; namespaces non-empty — accumulating all
violations rather than stopping at the first (witnessed by its equality
with the specification-ordered accumulator `validateMappingSpec`), and it
returns the empty list iff all of these checks pass. -/
theorem C5_validator_refines_spec (m : VisualizationMapping) :
    validateMapping m = validateMappingSpec m
    ∧ (validateMapping m = [] ↔
        (m.entityTypes ≠ []
         ∧ (∃ p ∈ m.properties, p.visualAttribute = VisualAttribute.label ∧ p.required = true)
         ∧ (∃ p ∈ m.properties, p.visualAttribute = VisualAttribute.position ∧ p.required = true)
         ∧ (∃ p ∈ m.properties, p.visualAttribute = VisualAttribute.layer ∧ p.required = true)
         ∧ (m.entityTypes.map (fun e => e.typeId)).Nodup
         ∧ m.namespaces ≠ [])) := by
  have heq : validateMapping m = validateMappingSpec m := by
    unfold validateMapping validateMappingSpec
    rw [ite_isEmpty_eq, ite_isEmpty_eq, ite_dedup_nodup,
      ite_any_exists m.properties _
        (fun p => p.visualAttribute = VisualAttribute.label ∧ p.required = true)
        (fun x => by simp),
      ite_any_exists m.properties _
        (fun p => p.visualAttribute = VisualAttribute.position ∧ p.required = true)
        (fun x => by simp),
      ite_any_exists m.properties _
        (fun p => p.visualAttribute = VisualAttribute.layer ∧ p.required = true)
        (fun x => by simp)]
  refine ⟨heq, ?_⟩
  rw [heq]
  unfold validateMappingSpec
  simp only [List.append_eq_nil, iteNilPos, iteNilNeg]
  tauto

/-- Claim C6: `registerConfiguration` on a configuration with a non-empty
violation list fails with an error carrying exactly those violations, the
manager state — and hence the set of registered ids and the registry size —
is unchanged by the failed call, and for an empty `entityTypes` array the
violation list contains the specified message. -/
theorem C6_register_invalid_atomic (st : ManagerState) (id : String)
    (cfg : VisualizationMapping) (h : validateMapping cfg ≠ []) :
    (registerConfiguration st id cfg).1 =
      .error (.configurationInvalid id (validateMapping cfg))
    ∧ (registerConfiguration st id cfg).2 = st
    ∧ (registerConfiguration st id cfg).2.configurations.map (fun kv => kv.1) =
      st.configurations.map (fun kv => kv.1)
    ∧ (registerConfiguration st id cfg).2.configurations.length =
      st.configurations.length
    ∧ (cfg.entityTypes = [] →
        "At least one entity type mapping is required" ∈ validateMapping cfg) := by
  have hlen : (validateMapping cfg).length > 0 := List.length_pos.mpr h
  have hre : registerConfiguration st id cfg =
      (.error (.configurationInvalid id (validateMapping cfg)), st) := by
    unfold registerConfiguration
    rw [if_pos hlen]
  refine ⟨by rw [hre], by rw [hre], by rw [hre], by rw [hre], ?_⟩
  intro he
  unfold validateMapping
  rw [he]
  simp

/-- Witness for C6 at a concrete input: registering `cfgBad` (empty
`entityTypes`) on the freshly-constructed manager fails with the specified
message and leaves the three built-in configurations untouched. -/
theorem C6_register_invalid_atomic_witness :
    (registerConfiguration initialManager "bad" cfgBad).1 =
      .error (.configurationInvalid "bad" (validateMapping cfgBad))
    ∧ (registerConfiguration initialManager "bad" cfgBad).2 = initialManager
    ∧ "At least one entity type mapping is required" ∈ validateMapping cfgBad
    ∧ initialManager.configurations.map (fun kv => kv.1) =
      ["default", "multiverse", "orgchart"] := by
  have h := C6_register_invalid_atomic initialManager "bad" cfgBad (by decide)
  exact ⟨h.1, h.2.1, h.2.2.2.2 rfl, by decide⟩

/-- Claim C10 (implicit registry invariant): every configuration stored in
the registry map has an empty violation list; this holds for the built-ins
installed by the constructor and is preserved by `registerConfiguration`,
`cloneConfiguration`, `loadConfigurationFromJSON`, `removeConfiguration`
and `resetManager`. -/
theorem C10_registry_invariant :
    RegistryInvariant initialManager
    ∧ (∀ st id cfg, RegistryInvariant st →
        RegistryInvariant (registerConfiguration st id cfg).2)
    ∧ (∀ st sid nid, RegistryInvariant st →
        RegistryInvariant (cloneConfiguration st sid nid).2)
    ∧ (∀ st id cfg, RegistryInvariant st →
        RegistryInvariant (loadConfigurationFromJSON st id cfg).2)
    ∧ (∀ st id, RegistryInvariant st →
        RegistryInvariant (removeConfiguration st id).2)
    ∧ (∀ st, RegistryInvariant (resetManager st)) := by
  refine ⟨?_, registerConfiguration_inv, cloneConfiguration_inv,
    loadConfigurationFromJSON_inv, removeConfiguration_inv, resetManager_inv⟩
  unfold RegistryInvariant initialManager
  decide

/-- Witness for C10 at concrete inputs: the invariant holds for the built-in
manager and is preserved across a concrete register, clone and remove. -/
theorem C10_registry_invariant_witness :
    RegistryInvariant
      (removeConfiguration
        (cloneConfiguration
          (registerConfiguration initialManager "extra" cfgScenario).2
          "default" "copy").2
        "orgchart").2 :=
  C10_registry_invariant.2.2.2.2.1 _ "orgchart"
    (C10_registry_invariant.2.2.1 _ "default" "copy"
      (C10_registry_invariant.2.1 initialManager "extra" cfgScenario
        C10_registry_invariant.1))

/-- Claim C9: the data service enforces at most one in-flight load: the
boolean guard is set before a load and cleared on completion (the `finally`
block), and a waiting caller polls the flag (the 100 ms `setTimeout` is
modelled as an untimed retry step) instead of starting a redundant load.
In the run-to-completion interleaving model of `loadData`, under every
schedule in which both concurrent callers finish, exactly one underlying
load was issued and both callers resolve to the same result, namely the
result `r0` of that single load. -/
theorem C9_single_flight {α : Type} (r0 : α) (sched : List Bool) (a b : α)
    (h1 : (svcRun r0 sched initSvc).t1 = .done a)
    (h2 : (svcRun r0 sched initSvc).t2 = .done b) :
    (svcRun r0 sched initSvc).loads = 1 ∧ a = r0 ∧ b = r0 := by
  obtain ⟨i1, i2, i3, i4, i5, i6, i7⟩ := svcRun_inv r0 sched initSvc (initSvc_inv r0)
  obtain ⟨ha, hc⟩ := i6 a h1
  obtain ⟨hb, _⟩ := i7 b h2
  refine ⟨?_, ha, hb⟩
  rw [i5, h1, h2, hc]
  simp [isLoadingTask_done]

/-- Witness for C9 at a concrete schedule: caller one starts the load,
caller two arrives while it is in flight and waits, the load completes,
caller two wakes up and takes the cached result; one load, equal results. -/
theorem C9_single_flight_witness :
    (svcRun (7 : Nat) [true, false, true, false] initSvc).loads = 1
    ∧ (7 : Nat) = 7 ∧ (7 : Nat) = 7 :=
  C9_single_flight 7 [true, false, true, false] 7 7 (by decide) (by decide)

/-- Claim C4 (amended): `cloneConfiguration(sourceId, newId)` fails with a
source-not-found error when `sourceId` is unregistered (state unchanged),
and otherwise registers under `newId` the JSON round-trip of the source —
a deep copy of the serializable data only:  every property-rule `transform`
and the `extractLayerId` function are dropped by
`JSON.parse(JSON.stringify(...))` — validated and stored exactly as
`registerConfiguration` does (the round-trip leaves the violation list
unchanged, so cloning a validly-stored source succeeds and stores the
stripped copy under `newId`). -/
theorem C4_clone_roundtrip (st : ManagerState) (sid nid : String) :
    (getConfiguration st sid = none →
      cloneConfiguration st sid nid = (.error (.sourceNotFound sid), st))
    ∧ (∀ cfg, getConfiguration st sid = some cfg →
        cloneConfiguration st sid nid = registerConfiguration st nid (jsonRoundTrip cfg)
        ∧ validateMapping (jsonRoundTrip cfg) = validateMapping cfg
        ∧ (jsonRoundTrip cfg).properties.all (fun p => p.transform.isNone) = true
        ∧ (jsonRoundTrip cfg).layerGrouping.extractLayerId.isNone = true
        ∧ (validateMapping cfg = [] →
            (cloneConfiguration st sid nid).1 = .ok ()
            ∧ getConfiguration (cloneConfiguration st sid nid).2 nid =
              some (jsonRoundTrip cfg))) := by
  constructor
  · intro h
    unfold cloneConfiguration
    rw [h]
  · intro cfg hg
    have hclone : cloneConfiguration st sid nid =
        registerConfiguration st nid (jsonRoundTrip cfg) := by
      unfold cloneConfiguration
      rw [hg]
    refine ⟨hclone, validateMapping_jsonRoundTrip cfg, ?_, rfl, ?_⟩
    · simp [jsonRoundTrip, List.all_eq_true]
    · intro hv
      have hv2 : (validateMapping (jsonRoundTrip cfg)).length = 0 := by
        rw [validateMapping_jsonRoundTrip cfg, hv]
        rfl
      have hreg : registerConfiguration st nid (jsonRoundTrip cfg) =
          (.ok (), { st with
            configurations := mapSet st.configurations nid (jsonRoundTrip cfg) }) := by
        unfold registerConfiguration
        rw [if_neg (by rw [hv2]; exact Nat.lt_irrefl 0)]
      rw [hclone, hreg]
      exact ⟨rfl, lookup_mapSet_self st.configurations nid (jsonRoundTrip cfg)⟩

/-- Counterexample to C4 as stated: cloning the registered `default`
configuration succeeds, but the stored copy does not include the executable
behavior — the source's rule set carries transforms on four of its six
rules and an `extractLayerId`, while the clone carries none of them. -/
theorem C4_counterexample :
    (cloneConfiguration initialManager "default" "copy").1 = .ok ()
    ∧ ((getConfiguration (cloneConfiguration initialManager "default" "copy").2 "copy").map
        (fun c => (c.properties.map (fun p => p.transform.isSome),
          c.layerGrouping.extractLayerId.isSome)))
      = some ([false, false, false, false, false, false], false)
    ∧ ((getConfiguration initialManager "default").map
        (fun c => (c.properties.map (fun p => p.transform.isSome),
          c.layerGrouping.extractLayerId.isSome)))
      = some ([false, true, true, false, true, true], true) :=
  ⟨rfl, rfl, rfl⟩

/-- Witness for C4 (amended) at concrete inputs: cloning from an
unregistered id fails with source-not-found, and cloning `default` stores
the function-stripped round-trip under the new id. -/
theorem C4_clone_roundtrip_witness :
    cloneConfiguration initialManager "missing" "x" =
      (.error (.sourceNotFound "missing"), initialManager)
    ∧ (cloneConfiguration initialManager "default" "copy").1 = .ok ()
    ∧ getConfiguration (cloneConfiguration initialManager "default" "copy").2 "copy"
      = some (jsonRoundTrip DEFAULT_MULTIVERSE_MAPPING) := by
  refine ⟨(C4_clone_roundtrip initialManager "missing" "x").1 rfl, ?_⟩
  have h := ((C4_clone_roundtrip initialManager "default" "copy").2
    DEFAULT_MULTIVERSE_MAPPING rfl).2.2.2.2 (by decide)
  exact h

/-- Claim C2 (amended): for every triple store and valid configuration
whose executable parts do not throw (`NoThrowConfig` — the proviso forced
by the counterexample, satisfied by every configuration shipped in the
repository), if one subject of a configured entity class is missing a
statement for some required property rule, then `queryData` returns
normally, its entity list omits the incomplete subject, and it contains
every entity whose materialization succeeds. -/
theorem C2_drop_not_crash (ds : List RDFQuad) (m : VisualizationMapping)
    (s : String) (hnt : NoThrowConfig m)
    (hty : ∃ q ∈ ds, q.subject = s ∧ q.predicate = rdfTypeIRI ∧
      ((entityTypeMap m).lookup (termValue q.object)).isSome)
    (hmiss : ∃ p ∈ m.properties, p.required = true ∧
      truthyValue (getPropertyValue ds s p.rdfProperty) = none) :
    ∃ res, queryData ds m = .ok res
      ∧ (∀ n ∈ res.nodes, n.id ≠ s)
      ∧ (∀ q ∈ ds, q.predicate = rdfTypeIRI → ∀ tid n,
          (entityTypeMap m).lookup (termValue q.object) = some tid →
          buildEntityFromRDF ds m q.subject tid = .ok (some n) → n ∈ res.nodes) := by
  obtain ⟨res, hok, hnodes⟩ := queryData_ok_of_noThrow ds m hnt
  refine ⟨res, hok, ?_, ?_⟩
  · intro n hn hid
    obtain ⟨q, hq, h1, tid, h2, h3⟩ :=
      (mem_extractEntitiesGo ds m ds res.nodes hnodes n).mp hn
    have hid2 : n.id = q.subject := buildEntityFromRDF_id ds m q.subject tid n h3
    obtain ⟨p, hp, hpr, hpm⟩ := hmiss
    have hqs : q.subject = s := by rw [← hid2, hid]
    have hnone : buildEntityFromRDF ds m q.subject tid = .ok none := by
      rw [hqs]
      exact buildEntityFromRDF_missing ds m s tid p hp hpr hpm hnt.1
    rw [hnone] at h3
    exact Option.noConfusion (Except.ok.inj h3)
  · intro q hq h1 tid n h2 h3
    exact (mem_extractEntitiesGo ds m ds res.nodes hnodes n).mpr ⟨q, hq, h1, tid, h2, h3⟩

/-- Counterexample to C2 as stated: the store satisfies the claim's
hypothesis (subject `http://b` of the configured class, present in the
store, misses its required position statement while subject `http://a` is
fully populated), the configuration passes the validator, and yet
`queryData` raises — the label transform throws on `http://a` and nothing
catches it — instead of returning the one-entity result. -/
theorem C2_counterexample :
    queryData dsScenario cfgThrow = .error "boom"
    ∧ (∃ q ∈ dsScenario, q.subject = "http://b" ∧ q.predicate = rdfTypeIRI ∧
        ((entityTypeMap cfgThrow).lookup (termValue q.object)).isSome)
    ∧ (∃ p ∈ cfgThrow.properties, p.required = true ∧
        truthyValue (getPropertyValue dsScenario "http://b" p.rdfProperty) = none)
    ∧ validateMapping cfgThrow = [] := by
  refine ⟨rfl, ?_, ?_, by decide⟩
  · exact ⟨⟨"http://b", rdfTypeIRI, .namedNode "http://v/Character"⟩, by decide, rfl, rfl, rfl⟩
  · have hprops : cfgThrow.properties =
        [⟨"http://v/label", .label, true, some throwingTransform⟩,
         ⟨"http://v/pos", .position, true, none⟩,
         ⟨"http://v/layer", .layer, true, none⟩] := rfl
    refine ⟨⟨"http://v/pos", .position, true, none⟩, ?_, rfl, rfl⟩
    rw [hprops]
    exact List.mem_cons_of_mem _ (List.mem_cons_self _ _)

/-- Witness for C2 (amended) at specification scenario 1: one fully
populated subject and one subject missing its position; the call succeeds,
omits `http://b` and the result has exactly the one entity `http://a`. -/
theorem C2_drop_not_crash_witness :
    (∃ res, queryData dsScenario cfgScenario = .ok res ∧
      (∀ n ∈ res.nodes, n.id ≠ "http://b"))
    ∧ (queryData dsScenario cfgScenario).toOption.map
        (fun r => r.nodes.map (fun n => n.id)) = some ["http://a"] := by
  constructor
  · have hnt : NoThrowConfig cfgScenario := by
      constructor
      · intro p hp v
        have hprops : cfgScenario.properties =
            [⟨"http://v/label", .label, true, none⟩,
             ⟨"http://v/pos", .position, true, none⟩,
             ⟨"http://v/layer", .layer, true, none⟩] := rfl
        rw [hprops] at hp
        simp only [List.mem_cons, List.not_mem_nil, or_false] at hp
        rcases hp with rfl | rfl | rfl <;> exact ⟨.str v, rfl⟩
      · rfl
    obtain ⟨res, hok, hom, _⟩ := C2_drop_not_crash dsScenario cfgScenario "http://b" hnt
      ⟨⟨"http://b", rdfTypeIRI, .namedNode "http://v/Character"⟩, by decide, rfl, rfl, rfl⟩
      (by
        have hprops : cfgScenario.properties =
            [⟨"http://v/label", .label, true, none⟩,
             ⟨"http://v/pos", .position, true, none⟩,
             ⟨"http://v/layer", .layer, true, none⟩] := rfl
        refine ⟨⟨"http://v/pos", .position, true, none⟩, ?_, rfl, rfl⟩
        rw [hprops]
        exact List.mem_cons_of_mem _ (List.mem_cons_self _ _))
    exact ⟨res, hok, hom⟩
  · rfl

/-- Claim C3 (amended): a property-rule transform failure is not contained:
if the transform throws while materializing any scanned entity, the
exception propagates and the whole `queryData` call fails (first conjunct);
only configurations whose transforms return normally — possibly with
malformed values, which merely leave attributes unset and entities dropped
— extract without raising (second conjunct). -/
theorem C3_transform_abort :
    (∀ ds m, (∃ q ∈ ds, q.predicate = rdfTypeIRI ∧
        ∃ tid, (entityTypeMap m).lookup (termValue q.object) = some tid ∧
          ∃ e, buildEntityFromRDF ds m q.subject tid = .error e) →
      ∃ e2, queryData ds m = .error e2)
    ∧ (∀ ds m, NoThrowConfig m → ∃ res, queryData ds m = .ok res) := by
  constructor
  · intro ds m h
    obtain ⟨e2, hgo⟩ := extractEntitiesGo_error ds m ds h
    exact ⟨e2, queryData_error_of_entities ds m e2 hgo⟩
  · intro ds m h
    obtain ⟨res, hok, _⟩ := queryData_ok_of_noThrow ds m h
    exact ⟨res, hok⟩

/-- Counterexample to C3 as stated: the label transform throws on the fully
populated subject `http://s3` (whose label, position and layer statements
are all present), and the whole `queryData` call aborts with that
exception instead of leaving one attribute unset and continuing. -/
theorem C3_counterexample :
    queryData dsT3 cfgT3 = .error "transform exploded"
    ∧ buildEntityFromRDF dsT3 cfgT3 "http://s3" "character" = .error "transform exploded"
    ∧ (getPropertyValue dsT3 "http://s3" "http://v/label" = some "S"
       ∧ getPropertyValue dsT3 "http://s3" "http://v/pos" = some "1,2,3"
       ∧ getPropertyValue dsT3 "http://s3" "http://v/layer" = some "L")
    ∧ validateMapping cfgT3 = [] :=
  ⟨rfl, rfl, ⟨rfl, rfl, rfl⟩, by decide⟩

/-- Witness for C3 (amended) at concrete inputs: the throwing configuration
aborts the whole call on `dsT3`, while the same store under the
transform-free scenario configuration extracts without raising. -/
theorem C3_transform_abort_witness :
    (∃ e2, queryData dsT3 cfgT3 = .error e2)
    ∧ (∃ res, queryData dsT3 cfgScenario = .ok res) := by
  constructor
  · exact C3_transform_abort.1 dsT3 cfgT3
      ⟨⟨"http://s3", rdfTypeIRI, .namedNode "http://v/Character"⟩, by decide, rfl,
        "character", rfl, "transform exploded", rfl⟩
  · refine C3_transform_abort.2 dsT3 cfgScenario ⟨?_, rfl⟩
    intro p hp v
    have hprops : cfgScenario.properties =
        [⟨"http://v/label", .label, true, none⟩,
         ⟨"http://v/pos", .position, true, none⟩,
         ⟨"http://v/layer", .layer, true, none⟩] := rfl
    rw [hprops] at hp
    simp only [List.mem_cons, List.not_mem_nil, or_false] at hp
    rcases hp with rfl | rfl | rfl <;> exact ⟨.str v, rfl⟩

theorem positionFallback_spec (raw : String) :
    ((positionFallback raw).isSome ↔ (jsSplit raw ',').length = 3)
    ∧ (∀ a b c, positionFallback raw = some (a, b, c) →
        (jsSplit raw ',').map jsNumber = [a, b, c]) := by
  have hlen : ((jsSplit raw ',').map jsNumber).length = (jsSplit raw ',').length :=
    List.length_map _ _
  unfold positionFallback
  rcases hl : (jsSplit raw ',').map jsNumber with _ | ⟨a, _ | ⟨b, _ | ⟨c, _ | ⟨d, t⟩⟩⟩⟩ <;>
    rw [hl] at hlen <;>
    constructor
  · simp [← hlen]
  · intro a b c h
    exact absurd h (by simp)
  · simp [← hlen]
  · intro a2 b2 c2 h
    exact absurd h (by simp)
  · simp [← hlen]
  · intro a2 b2 c2 h
    exact absurd h (by simp)
  · simp [← hlen]
  · intro a2 b2 c2 h
    have h2 : (a, b, c) = (a2, b2, c2) := Option.some.inj h
    obtain ⟨rfl, rfl, rfl⟩ : a = a2 ∧ b = b2 ∧ c = c2 := by
      simpa [Prod.ext_iff] using h2
    rfl
  · simp [← hlen]
  · intro a2 b2 c2 h
    exact absurd h (by simp)

/-- Claim C7 (amended): when a position rule resolves to a raw value and
the transform result is not a structured `{x: ...}` object, the fallback
assigns the coordinates iff the raw literal splits on commas into exactly
three components; the components are converted by JS `Number` and are NOT
checked for numericness (they may be NaN — the divergence forced by the
counterexample); a value with a different component count is discarded and
the position slots are left untouched. -/
theorem C7_position_fallback (ds : List RDFQuad) (uri : String)
    (acc : NodeBuild × List String) (p : PropertyMapping) (raw : String)
    (tv : JSVal) (hattr : p.visualAttribute = VisualAttribute.position)
    (hval : truthyValue (getPropertyValue ds uri p.rdfProperty) = some raw)
    (htr : transformApply p raw = .ok tv)
    (hns : isStructuredPos tv = false) :
    applyPropertyRule ds uri acc p =
      .ok (match positionFallback raw with
        | some (a, b, c) => ({ acc.1 with x := some a, y := some b, z := some c }, acc.2)
        | none => acc)
    ∧ ((positionFallback raw).isSome ↔ (jsSplit raw ',').length = 3)
    ∧ (∀ a b c, positionFallback raw = some (a, b, c) →
        (jsSplit raw ',').map jsNumber = [a, b, c]) := by
  have hspec := positionFallback_spec raw
  refine ⟨?_, hspec.1, hspec.2⟩
  have hroute : routeAttribute p raw tv acc.1 =
      (match positionFallback raw with
        | some (a, b, c) => { acc.1 with x := some a, y := some b, z := some c }
        | none => acc.1) := by
    unfold routeAttribute
    rw [hattr]
    cases tv with
    | obj x0 y0 z0 =>
      cases x0 with
      | some x1 => simp [isStructuredPos] at hns
      | none => rfl
    | str s2 => rfl
    | num n2 => rfl
    | undef => rfl
  rw [applyPropertyRule_present ds uri acc p raw hval, htr]
  simp only [Except.map]
  rw [hroute]
  cases hpf : positionFallback raw with
  | some t =>
    obtain ⟨a, b, c⟩ := t
    rfl
  | none => rfl

/-- Counterexample to C7 as stated: the raw position literal `"a,b,c"`
does not parse into three numbers (each component converts to NaN), yet the
fallback assigns the coordinates — the count check is the only check — and
the entity is materialized with NaN coordinates rather than dropped. -/
theorem C7_counterexample :
    (buildEntityFromRDF ds7 cfgScenario "http://s" "character").map
      (fun o => o.map (fun n => (n.x, n.y, n.z))) = .ok (some (.nan, .nan, .nan))
    ∧ jsNumber "a" = .nan
    ∧ (jsSplit "a,b,c" ',').length = 3
    ∧ (queryData ds7 cfgScenario).toOption.map (fun r => r.nodes.length) = some 1 :=
  ⟨rfl, rfl, rfl, rfl⟩

/-- Witness for C7 (amended): a two-component raw value `"1,2"` under the
transform-free position rule leaves the accumulator untouched (position
unset), and the fallback succeeds exactly on three-component splits. -/
theorem C7_position_fallback_witness :
    applyPropertyRule ds7b "http://s" (emptyBuild, []) posRule = .ok (emptyBuild, [])
    ∧ ((positionFallback "1,2").isSome ↔ (jsSplit "1,2" ',').length = 3)
    ∧ positionFallback "1,2" = none := by
  have h := C7_position_fallback ds7b "http://s" (emptyBuild, []) posRule "1,2"
    (.str "1,2") rfl rfl rfl rfl
  refine ⟨?_, h.2.1, rfl⟩
  rw [h.1]
  rfl

/-- Claim C8 (amended): layer extraction returns an empty layer map
whenever the configuration has no (truthy) layer class; otherwise, for each
subject typed as the layer class, the layer key is derived by applying
`extractLayerId` to the subject's own identifier, a layer is materialized
exactly when a display name was resolved truthy AND the derived key is
non-empty (the extra key condition is the correction forced by the
counterexample), and an absent color defaults to `0x666666` while an
absent height defaults to `0`. -/
theorem C8_layer_extraction (ds : List RDFQuad) (m : VisualizationMapping) :
    (layerClassTruthy m = none → extractLayers ds m = .ok [])
    ∧ (∀ uri k l, buildLayerFromRDF ds m uri = .ok (some (k, l)) →
        applyExtractLayerId m.layerGrouping uri = .ok k ∧ k ≠ "" ∧
        ∃ lb, resolveLayerProps ds m uri = .ok lb ∧
          ∃ nm, lb.name = some nm ∧ nm.truthy = true ∧
            l = ⟨nm, jsOr lb.color (.num (.val 6710886)), jsOr lb.height (.num (.val 0))⟩)
    ∧ (∀ uri lb nm k, resolveLayerProps ds m uri = .ok lb → lb.name = some nm →
        nm.truthy = true → applyExtractLayerId m.layerGrouping uri = .ok k → k ≠ "" →
        buildLayerFromRDF ds m uri = .ok (some (k,
          ⟨nm, jsOr lb.color (.num (.val 6710886)), jsOr lb.height (.num (.val 0))⟩))) := by
  refine ⟨?_, ?_, ?_⟩
  · intro h
    unfold extractLayers
    rw [h]
  · intro uri k l h
    unfold buildLayerFromRDF at h
    cases hres : resolveLayerProps ds m uri with
    | error e => rw [hres] at h; exact absurd h (by simp [Except.bind])
    | ok lb =>
      rw [hres] at h
      simp only [Except.bind] at h
      cases hkey : applyExtractLayerId m.layerGrouping uri with
      | error e => rw [hkey] at h; exact absurd h (by simp [Except.map])
      | ok key =>
        rw [hkey] at h
        simp only [Except.map] at h
        have hfin : finalizeLayer key lb = some (k, l) := Except.ok.inj h
        unfold finalizeLayer at hfin
        cases hn : lb.name with
        | none => rw [hn] at hfin; exact absurd hfin (by simp)
        | some nm =>
          rw [hn] at hfin
          dsimp only at hfin
          by_cases hc : nm.truthy = true ∧ key ≠ ""
          · rw [if_pos hc] at hfin
            have hkl := Option.some.inj hfin
            have hkk : key = k := congrArg Prod.fst hkl
            have hll : l = ⟨nm, jsOr lb.color (.num (.val 6710886)),
                jsOr lb.height (.num (.val 0))⟩ := (congrArg Prod.snd hkl).symm
            exact ⟨by rw [hkk], hkk ▸ hc.2, lb, rfl, nm, hn, hc.1, hll⟩
          · rw [if_neg hc] at hfin
            exact absurd hfin (by simp)
  · intro uri lb nm k hres hn htr hkey hke
    unfold buildLayerFromRDF
    rw [hres]
    simp only [Except.bind]
    rw [hkey]
    simp only [Except.map]
    unfold finalizeLayer
    rw [hn]
    dsimp only
    rw [if_pos ⟨htr, hke⟩]

/-- Counterexample to C8 as stated: a universe subject whose IRI ends in a
slash resolves a display name (`"U"`), yet no layer is materialized — the
default `extractLayerId` derives the empty key from the subject IRI and the
guard also requires a non-empty key, so "materialized exactly when a
display name was resolved" fails. -/
theorem C8_counterexample :
    extractLayers dsU DEFAULT_MULTIVERSE_MAPPING = .ok []
    ∧ (resolveLayerProps dsU DEFAULT_MULTIVERSE_MAPPING
        "http://example.org/universe/").map (fun lb => lb.name) = .ok (some (.str "U"))
    ∧ applyExtractLayerId DEFAULT_MULTIVERSE_MAPPING.layerGrouping
        "http://example.org/universe/" = .ok ""
    ∧ (⟨"http://example.org/universe/", rdfTypeIRI,
        .namedNode "http://example.org/multiverse/vocab/Universe"⟩ : RDFQuad) ∈ dsU :=
  ⟨rfl, rfl, rfl, by decide⟩

/-- Witness for C8 (amended): a regular universe IRI with only a label
statement materializes the layer under the IRI-derived key with the default
color `0x666666` and height `0`; and a configuration without a layer class
yields the empty map. -/
theorem C8_layer_extraction_witness :
    buildLayerFromRDF dsU2 DEFAULT_MULTIVERSE_MAPPING "http://example.org/universe/U1"
      = .ok (some ("U1", ⟨.str "U", .num (.val 6710886), .num (.val 0)⟩))
    ∧ extractLayers dsU2 cfgScenario = .ok [] := by
  constructor
  · exact (C8_layer_extraction dsU2 DEFAULT_MULTIVERSE_MAPPING).2.2
      "http://example.org/universe/U1" ⟨some (.str "U"), none, none⟩ (.str "U") "U1"
      rfl rfl rfl rfl (by decide)
  · exact (C8_layer_extraction dsU2 cfgScenario).1 rfl

/-- Claim C1 (code bug): the entity extracted from an organizational-chart
store under the built-in `orgchart` configuration is shape-valid — non-empty
id, truthy label and layer key, numeric coordinates — with typeId
`"person"`, yet `validateNodes` rejects it because it hardcodes the
multiverse type ids `['character', 'movie']`; consequently
`loadDataWithConfiguration` fails with "Node validation failed" for every
non-multiverse vocabulary, contradicting the repository's own
generic-vocabulary documentation and its generalized `EntityTypeId` type. -/
theorem C1_result_validator_rejects_generic_typeIds :
    ((queryData dsOrg EXAMPLE_ORG_CHART_MAPPING).toOption.map
      (fun r => r.nodes.map (fun n => (n.id, n.type, n.label.truthy, n.layer.truthy))))
      = some [("http://example.org/people/alice", "person", true, true)]
    ∧ ((queryData dsOrg EXAMPLE_ORG_CHART_MAPPING).toOption.map
      (fun r => r.nodes.map (fun n => (n.x, n.y, n.z))))
      = some [(.val 1, .val 2, .val 3)]
    ∧ ((queryData dsOrg EXAMPLE_ORG_CHART_MAPPING).toOption.map
      (fun r => validateNodes r.nodes)) = some false
    ∧ loadDataWithConfiguration initialManager dsOrg "orgchart" =
      .error "Node validation failed" :=
  ⟨rfl, by decide, rfl, rfl⟩
